import Mathlib

/-! bot-gpt: conversation controller and model gateway.

A shallow embedding of `src/controllers/conversationController.js`,
`src/services/llmService.js` and the three Mongoose schemas under
`src/models/`, followed by theorems about the handlers.

Conventions of the embedding:

* A JavaScript string is its sequence of UTF-16 code units (`JsString`), so
  that `slice`, `trim` and `===` mean what they mean in the source.
* A handler is a pure function from the request, the store and the values the
  runtime supplies during the request (generated ids, clock readings, the
  model gateway) to the HTTP response, the store afterwards and the list of
  gateway invocations it made.
* `next(err)` ends in the error middleware of `src/index.js`; it is the
  response `Response.unhandled`.
* A number is a double; the handlers only compute with integers, so a finite
  number is the integer a double holds, and `toNumber` rounds to the nearest
  double.
* `Model.create` yields the document built in memory (what the handler puts in
  its response) and stores its stored form: strings reach the store as UTF-8,
  which cannot hold a lone surrogate.
-/

namespace BotGpt

/-! ## JavaScript strings and values -/

/-- A JavaScript string: the list of its UTF-16 code units. -/
abbrev JsString := List Nat

/-- Code units of a source literal (all literals of the source are ASCII). -/
def lit (s : String) : JsString := s.toList.map Char.toNat

/-- The code units removed by `String.prototype.trim` and skipped by `parseInt`:
ECMAScript WhiteSpace and LineTerminator. -/
def isWhiteSpace (c : Nat) : Bool :=
  c == 0x09 || c == 0x0A || c == 0x0B || c == 0x0C || c == 0x0D || c == 0x20 ||
  c == 0xA0 || c == 0x1680 || (0x2000 ≤ c && c ≤ 0x200A) || c == 0x2028 ||
  c == 0x2029 || c == 0x202F || c == 0x205F || c == 0x3000 || c == 0xFEFF

/-- The method `String.prototype.trim`. -/
def trim (s : JsString) : JsString :=
  ((s.dropWhile isWhiteSpace).reverse.dropWhile isWhiteSpace).reverse

/-- The call `s.slice(0, n)` for a non-negative `n`. -/
def slice0 (s : JsString) (n : Nat) : JsString := s.take n

/-- Whether a code unit is a leading (high) surrogate. -/
def isHighSurrogate (c : Nat) : Bool := 0xD800 ≤ c && c ≤ 0xDBFF

/-- Whether a code unit is a trailing (low) surrogate. -/
def isLowSurrogate (c : Nat) : Bool := 0xDC00 ≤ c && c ≤ 0xDFFF

/-- What a string is once the MongoDB driver has written it (as UTF-8) and it
is read back: surrogate pairs are kept and every surrogate outside a pair is
U+FFFD, as `String.prototype.toWellFormed` does. -/
def toWellFormed : JsString → JsString
  | [] => []
  | [c] => if isHighSurrogate c || isLowSurrogate c then [0xFFFD] else [c]
  | c :: d :: rest =>
    if isHighSurrogate c then
      if isLowSurrogate d then c :: d :: toWellFormed rest
      else 0xFFFD :: toWellFormed (d :: rest)
    else if isLowSurrogate c then 0xFFFD :: toWellFormed (d :: rest)
    else c :: toWellFormed (d :: rest)

/-- The call `xs.join(sep)` on an array of strings. -/
def join (sep : JsString) : List JsString → JsString
  | [] => []
  | [x] => x
  | x :: y :: rest => x ++ sep ++ join sep (y :: rest)

/-- A value found in a parsed JSON request body or in an error object. -/
inductive JsVal where
  | undefined
  | null
  | bool (b : Bool)
  | num (n : Int)
  | str (s : JsString)
  | object
  deriving DecidableEq, Repr

/-- JavaScript truthiness (`!v` is its negation). -/
def JsVal.truthy : JsVal → Bool
  | .undefined => false
  | .null => false
  | .bool b => b
  | .num n => n != 0
  | .str s => !s.isEmpty
  | .object => true

/-- The test `typeof v === "string"`. -/
def JsVal.isString : JsVal → Bool
  | .str _ => true
  | _ => false

/-- The string carried by a value that passed `typeof v === "string"`. -/
def JsVal.asString : JsVal → JsString
  | .str s => s
  | _ => []

/-- A JavaScript number as this program computes with it: NaN, an infinity,
or a finite double whose value is the integer `z`. Every finite number the
handlers compute is an integer (the sign of zero is not tracked). -/
inductive JsNum where
  | nan
  | int (z : Int)
  | inf (negative : Bool)
  deriving DecidableEq, Repr

/-- Number of low bits a natural number has beyond 53 significant bits: the
least `e` with `n / 2 ^ e < 2 ^ 53` (`fuel` bounds the search). -/
def excessBits : Nat → Nat → Nat
  | 0, _ => 0
  | fuel + 1, n => if n < 2 ^ 53 then 0 else excessBits fuel (n / 2) + 1

/-- Magnitude of the double nearest to the natural number `n`: `n` is rounded
to 53 significant bits, ties to the even significand. -/
def roundNat (n : Nat) : Nat :=
  let e := excessBits n n
  let q := n / 2 ^ e
  let r := n % 2 ^ e
  if 2 ^ e < 2 * r ∨ (2 * r = 2 ^ e ∧ q % 2 = 1) then (q + 1) * 2 ^ e else q * 2 ^ e

/-- The Number value of a mathematical integer: the nearest double, an
infinity from `2 ^ 1024` (written `(2 ^ 256) ^ 4`) on. -/
def toNumber (z : Int) : JsNum :=
  if (2 ^ 256) ^ 4 ≤ roundNat z.natAbs then .inf (decide (z < 0))
  else if z < 0 then .int (-(roundNat z.natAbs : Int)) else .int (roundNat z.natAbs : Int)

/-- The function `Math.max(a, b)`. -/
def JsNum.max : JsNum → JsNum → JsNum
  | .nan, _ => .nan
  | _, .nan => .nan
  | .int a, .int b => .int (Max.max a b)
  | .inf false, _ => .inf false
  | _, .inf false => .inf false
  | .inf true, b => b
  | a, .inf true => a

/-- The function `Math.min(a, b)`. -/
def JsNum.min : JsNum → JsNum → JsNum
  | .nan, _ => .nan
  | _, .nan => .nan
  | .int a, .int b => .int (Min.min a b)
  | .inf true, _ => .inf true
  | _, .inf true => .inf true
  | .inf false, b => b
  | a, .inf false => a

/-- Unary minus. -/
def JsNum.neg : JsNum → JsNum
  | .nan => .nan
  | .int a => .int (-a)
  | .inf s => .inf (!s)

/-- Addition of numbers. -/
def JsNum.add : JsNum → JsNum → JsNum
  | .nan, _ => .nan
  | _, .nan => .nan
  | .int a, .int b => toNumber (a + b)
  | .inf s, .int _ => .inf s
  | .int _, .inf s => .inf s
  | .inf s, .inf t => if s = t then .inf s else .nan

/-- Subtraction of numbers. -/
def JsNum.sub (a b : JsNum) : JsNum := JsNum.add a (JsNum.neg b)

/-- Multiplication of numbers. -/
def JsNum.mul : JsNum → JsNum → JsNum
  | .nan, _ => .nan
  | _, .nan => .nan
  | .int a, .int b => toNumber (a * b)
  | .inf s, .int b => if b = 0 then .nan else .inf (s != decide (b < 0))
  | .int a, .inf s => if a = 0 then .nan else .inf (s != decide (a < 0))
  | .inf s, .inf t => .inf (s != t)

/-- The comparison `a < b`; false when either side is NaN. -/
def JsNum.lt : JsNum → JsNum → Bool
  | .nan, _ => false
  | _, .nan => false
  | .int a, .int b => decide (a < b)
  | .inf true, .inf true => false
  | .inf true, _ => true
  | _, .inf true => false
  | .inf false, _ => false
  | _, .inf false => true

/-- Whether a code unit is a decimal digit. -/
def isDigit (c : Nat) : Bool := 0x30 ≤ c && c ≤ 0x39

/-- Value of the longest prefix of decimal digits, read left to right from `acc`. -/
def digitsValue (acc : Nat) : JsString → Nat
  | [] => acc
  | c :: cs => if isDigit c then digitsValue (acc * 10 + (c - 0x30)) cs else acc

/-- Unsigned part of `parseInt`: NaN unless the text starts with a digit. -/
def parseDigits (s : JsString) : Option Nat :=
  match s with
  | [] => none
  | c :: _ => if isDigit c then some (digitsValue 0 s) else none

/-- The call `parseInt(s, 10)`: skip leading white space, read an optional
sign, then the longest run of decimal digits; NaN when there is none, else the
Number value of the signed integer read. -/
def parseInt (s : JsString) : JsNum :=
  match s.dropWhile isWhiteSpace with
  | [] => .nan
  | c :: cs =>
    if c == 0x2D then
      match parseDigits cs with
      | some n => toNumber (-(n : Int))
      | none => .nan
    else if c == 0x2B then
      match parseDigits cs with
      | some n => toNumber n
      | none => .nan
    else
      match parseDigits (c :: cs) with
      | some n => toNumber n
      | none => .nan

/-- Decimal digits of `n` pushed in front of `acc`, most significant first
(`fuel` bounds the number of digits). -/
def decimalDigits : Nat → Nat → JsString → JsString
  | 0, _, acc => acc
  | fuel + 1, n, acc =>
    if n < 10 then (n + 0x30) :: acc
    else decimalDigits fuel (n / 10) ((n % 10 + 0x30) :: acc)

/-- Decimal digits of a natural number, most significant first. -/
def decimalNat (n : Nat) : JsString := decimalDigits (n + 1) n []

/-- The decimal text of an integer, as it appears in a query string. -/
def decimal (z : Int) : JsString :=
  if z < 0 then 0x2D :: decimalNat z.natAbs else decimalNat z.natAbs

/-! ## Data model (`src/models`) -/

/-- A Mongo ObjectId, identified with the hexadecimal text `String(id)` yields. -/
structure ObjectId where
  hex : JsString
  deriving DecidableEq, Repr

/-- Record of `models/User.js`. -/
structure User where
  _id : ObjectId
  name : Option JsString
  email : Option JsString
  createdAt : Nat
  deriving DecidableEq, Repr

/-- The enum of `Conversation.state`. -/
inductive ConvState where
  | active
  | archived
  | deleted
  deriving DecidableEq, Repr

/-- Record of `models/Conversation.js` (with the two `timestamps` fields). -/
structure Conversation where
  _id : ObjectId
  userId : Option ObjectId
  title : Option JsString
  mode : JsString
  documentRefs : List JsString
  state : ConvState
  createdAt : Nat
  updatedAt : Nat
  deriving DecidableEq, Repr

/-- A value stored under a key of a `meta` object. -/
inductive MetaVal where
  | js (v : JsVal)
  | completion (contents : Option (List (Option JsString)))
  deriving DecidableEq, Repr

/-- A `meta` object: its own properties in insertion order. -/
abbrev Meta := List (String × MetaVal)

/-- Record of `models/Message.js` (with the two `timestamps` fields). The
schema has no `tokens` path, so the `tokens` the controller passes to
`Message.create` is not part of the record. -/
structure Message where
  _id : ObjectId
  conversationId : ObjectId
  role : JsString
  text : JsString
  meta : Option Meta
  createdAt : Nat
  updatedAt : Nat
  deriving DecidableEq, Repr

/-- The three collections. Each list is in insertion order. -/
structure Store where
  users : List User
  conversations : List Conversation
  messages : List Message
  deriving DecidableEq, Repr

/-- A `meta` value as stored: its strings pass through `toWellFormed`. -/
def MetaVal.stored : MetaVal → MetaVal
  | .js (.str s) => .js (.str (toWellFormed s))
  | .js v => .js v
  | .completion contents =>
    .completion (contents.map (fun cs => cs.map (fun c => c.map toWellFormed)))

/-- A `meta` object as stored. -/
def storedMeta (m : Meta) : Meta := m.map (fun kv => (kv.1, kv.2.stored))

/-- The document the store holds for a Conversation built in memory: every
string is written as UTF-8, hence `toWellFormed`. -/
def storedConversation (c : Conversation) : Conversation :=
  { c with title := c.title.map toWellFormed, mode := toWellFormed c.mode,
           documentRefs := c.documentRefs.map toWellFormed }

/-- The document the store holds for a Message built in memory. -/
def storedMessage (m : Message) : Message :=
  { m with role := toWellFormed m.role, text := toWellFormed m.text,
           meta := m.meta.map storedMeta }

/-- The schema option `minimize` (on by default): an empty `meta` object is
left out of the document, when saving and when serialising. -/
def minimize (meta : Option Meta) : Option Meta :=
  match meta with
  | some [] => none
  | m => m

/-! ## Library functions the handlers call -/

/-- Library functions whose tables are not part of the repository:
`String.prototype.toLowerCase` and Mongoose casting of a route parameter to an
ObjectId (`mongoose.isValidObjectId` answers whether that cast exists). -/
structure Env where
  toLowerCase : JsString → JsString
  castObjectId : JsString → Option ObjectId

/-- The predicate `mongoose.isValidObjectId(id)` on a route parameter. -/
def Env.isValidObjectId (env : Env) (id : JsString) : Bool :=
  (env.castObjectId id).isSome

/-- The expression `email.toLowerCase().trim()`. -/
def Env.normalizeEmail (env : Env) (email : JsString) : JsString :=
  trim (env.toLowerCase email)

/-- Values the runtime supplies while one request is handled: the k-th
ObjectId the driver generates and the k-th reading of the clock. -/
structure Effects where
  newId : Nat → ObjectId
  now : Nat → Nat

/-! ## Store operations (Mongoose queries used by the controllers) -/

/-- The query `User.findOne({ email })`: the first user with that email (the
filter string reaches the server as UTF-8, hence `toWellFormed`). -/
def findUserByEmail (s : Store) (email : JsString) : Option User :=
  s.users.find? (fun u => decide (u.email = some (toWellFormed email)))

/-- The query `Conversation.findById(id)` after the id was cast. -/
def findConversationById (s : Store) (id : ObjectId) : Option Conversation :=
  s.conversations.find? (fun c => decide (c._id = id))

/-- The write behind `conv.save()`: replace the stored document of that id. -/
def replaceConversation (c : Conversation) : List Conversation → List Conversation
  | [] => []
  | d :: ds => if d._id = c._id then c :: ds else d :: replaceConversation c ds

/-- The call `conv.save()` on a loaded document: a document without changes
is not written; otherwise the `timestamps` hook stamps `updatedAt` with the
clock reading `t` and the document replaces the stored one. -/
def saveConversation (s : Store) (old new : Conversation) (t : Nat) : Store :=
  if new = old then s
  else { s with conversations := replaceConversation { new with updatedAt := t } s.conversations }

/-- The filter `{ state: { $ne: "deleted" } }`. -/
def notDeleted (c : Conversation) : Bool := decide (c.state ≠ ConvState.deleted)

/-- Messages of one conversation: `Message.find({ conversationId })`. -/
def messagesOf (s : Store) (cid : ObjectId) : List Message :=
  s.messages.filter (fun m => decide (m.conversationId = cid))

/-- Sort `{ createdAt: 1 }` (ties keep insertion order). -/
def sortCreatedAsc (ms : List Message) : List Message :=
  ms.insertionSort (fun a b => a.createdAt ≤ b.createdAt)

/-- Sort `{ createdAt: -1 }` (ties keep insertion order). -/
def sortCreatedDesc (ms : List Message) : List Message :=
  ms.insertionSort (fun a b => b.createdAt ≤ a.createdAt)

/-- Sort `{ updatedAt: -1 }` (ties keep insertion order). -/
def sortUpdatedDesc (cs : List Conversation) : List Conversation :=
  cs.insertionSort (fun a b => b.updatedAt ≤ a.updatedAt)

/-- The cursor modifiers `.skip(skip).limit(limit)` as the MongoDB driver runs
them: a negative or non-finite skip and a non-finite limit are rejected by
the server (`none`), limit 0 means no limit, and a negative limit is sent as
its absolute value. -/
def cursorWindow {α : Type} (skip limit : JsNum) (docs : List α) : Option (List α) :=
  match skip, limit with
  | .int sk, .int l =>
    if sk < 0 then none
    else if l = 0 then some (docs.drop sk.toNat)
    else some ((docs.drop sk.toNat).take l.natAbs)
  | _, _ => none

/-- The enum validator of `Conversation.mode`. -/
def validMode (mode : JsString) : Bool :=
  mode == lit "open" || mode == lit "grounded"

/-- The call `Conversation.create({ userId, mode, documentRefs, title })`:
schema validation, defaults (`state`), timestamps, insert. It yields the
document built in memory and the store holding its stored form. `none` is the
rejected promise of a failed validation. -/
def conversationCreate (s : Store) (id : ObjectId) (t : Nat) (userId : ObjectId)
    (mode : JsString) (documentRefs : List JsString) (title : JsString) :
    Option (Conversation × Store) :=
  if validMode mode then
    let conv : Conversation :=
      { _id := id, userId := some userId, title := some title, mode := mode,
        documentRefs := documentRefs, state := ConvState.active,
        createdAt := t, updatedAt := t }
    some (conv, { s with conversations := s.conversations ++ [storedConversation conv] })
  else none

/-- The enum validator of `Message.role`. -/
def validRole (role : JsString) : Bool :=
  role == lit "user" || role == lit "assistant" || role == lit "system"

/-- The call `Message.create({ conversationId, role, text, meta })`: `role`
must be in the enum and `text` is required (an empty string fails
`required`). It yields the document built in memory and the store holding its
stored form. `none` is the rejected promise of a failed validation. -/
def messageCreate (s : Store) (id : ObjectId) (t : Nat) (cid : ObjectId)
    (role text : JsString) (meta : Option Meta) : Option (Message × Store) :=
  if validRole role && !text.isEmpty then
    let msg : Message :=
      { _id := id, conversationId := cid, role := role, text := text, meta := minimize meta,
        createdAt := t, updatedAt := t }
    some (msg, { s with messages := s.messages ++ [storedMessage msg] })
  else none

/-! ## Model gateway (`src/services/llmService.js`) -/

/-- One entry of the context handed to the gateway: `{ role, text }`. -/
structure ContextEntry where
  role : JsString
  text : JsString
  deriving DecidableEq, Repr

/-- The argument object of `callModel`. -/
structure CallArgs where
  conversationId : ObjectId
  messages : List ContextEntry
  mode : JsString
  documentRefs : List JsString
  deriving DecidableEq, Repr

/-- The object `callModel` resolves to: `{ text, meta }`, either possibly missing. -/
structure LlmResp where
  text : Option JsString
  meta : Option Meta
  deriving DecidableEq, Repr

/-- What `await LLM.callModel(...)` does in a controller: it throws, or it
yields a value (`none` for a null or undefined value). -/
inductive GatewayOutcome where
  | threw
  | returned (resp : Option LlmResp)
  deriving DecidableEq, Repr

/-- One entry of the Chat Completions request: `{ role, content }`. -/
structure ChatMessage where
  role : JsString
  content : JsString
  deriving DecidableEq, Repr

/-- The request `axios.post(providerUrl, body, { headers })`. -/
structure HttpRequest where
  url : JsString
  model : JsString
  messages : List ChatMessage
  stream : Bool
  authorization : JsString
  contentType : JsString
  deriving DecidableEq, Repr

/-- What `await axios.post(...)` does: it resolves with `resp.data` (given by
the `message.content` of each of its `choices`, when it has `choices`), or it
rejects with an error carrying `response.data` and `message`. -/
inductive AxiosOutcome where
  | resolved (choices : Option (List (Option JsString)))
  | rejected (responseData : JsVal) (message : JsVal)
  deriving DecidableEq, Repr

/-- The environment variables `LLM_PROVIDER_URL`, `LLM_API_KEY`, `LLM_MODEL`. -/
structure ProviderConfig where
  providerUrl : Option JsString
  apiKey : Option JsString
  model : Option JsString
  deriving DecidableEq, Repr

/-- The test `!v` on an environment variable: unset or empty. -/
def unset (v : Option JsString) : Bool :=
  match v with
  | none => true
  | some s => s.isEmpty

/-- The system instruction pushed first. -/
def systemInstruction : ChatMessage :=
  { role := lit "system", content := lit "You are an assistant. Answer concisely." }

/-- The system entry pushed in grounded mode. -/
def documentsEntry (documentRefs : List JsString) : ChatMessage :=
  { role := lit "system",
    content := lit "[DOCUMENTS]\n" ++ join (lit "\n") documentRefs }

/-- The list `chatMessages` built by `callModel` (lines 21-43). -/
def chatMessages (a : CallArgs) : List ChatMessage :=
  [systemInstruction]
    ++ (if a.mode == lit "grounded" && decide (a.documentRefs.length > 0)
        then [documentsEntry a.documentRefs] else [])
    ++ a.messages.map (fun m => { role := m.role, content := m.text })

/-- The expression `resp.data?.choices?.[0]?.message?.content || ""`. -/
def firstChoiceContent (choices : Option (List (Option JsString))) : JsString :=
  match choices with
  | some (some c :: _) => c
  | _ => []

/-- The function `callModel`: its result and the network requests it made. -/
def callModel (cfg : ProviderConfig) (post : HttpRequest → AxiosOutcome) (a : CallArgs) :
    LlmResp × List HttpRequest :=
  if unset cfg.providerUrl || unset cfg.model then
    ({ text := some (lit "Model provider not configured."),
       meta := some [("error", MetaVal.js (JsVal.str (lit "missing_provider")))] }, [])
  else
    let req : HttpRequest :=
      { url := cfg.providerUrl.getD [], model := cfg.model.getD [],
        messages := chatMessages a, stream := false,
        authorization := lit "Bearer " ++ cfg.apiKey.getD (lit "undefined"),
        contentType := lit "application/json" }
    match post req with
    | .resolved choices =>
      ({ text := some (firstChoiceContent choices),
         meta := some [("providerResponse", MetaVal.completion choices)] }, [req])
    | .rejected responseData message =>
      ({ text := some (lit "Sorry, I'm having trouble reaching the model right now."),
         meta := some [("error", MetaVal.js (JsVal.bool true)),
                       ("details", MetaVal.js (if responseData.truthy then responseData else message))] },
       [req])

/-- The gateway a controller reaches through `LLM.callModel` in production. -/
def providerGateway (cfg : ProviderConfig) (post : HttpRequest → AxiosOutcome) :
    CallArgs → GatewayOutcome :=
  fun a => GatewayOutcome.returned (some (callModel cfg post a).1)

/-! ## Conversation controller (`src/controllers/conversationController.js`) -/

/-- What a handler sends: `res.status(..).json(..)`, `res.json(..)`,
`res.status(204).send()`, or `next(err)`. -/
inductive Response where
  | error (status : Nat) (message : JsString)
  | created (conversation : Conversation) (messages : List Message)
  | listed (page limit : JsNum) (total : Nat) (hasMore : Bool) (items : List Conversation)
  | conversation (conversation : Conversation) (messages : List Message)
  | appended (messages : List Message)
  | noContent
  | unhandled
  deriving DecidableEq, Repr

/-- HTTP status of a response (`next(err)` ends as 500 in `src/index.js`,
an error without a `status` of its own). -/
def Response.status : Response → Nat
  | .error st _ => st
  | .created _ _ => 201
  | .listed _ _ _ _ _ => 200
  | .conversation _ _ => 200
  | .appended _ => 201
  | .noContent => 204
  | .unhandled => 500

/-- Result of running a handler: the response, the store afterwards and the
gateway invocations made, in order. -/
structure Outcome where
  response : Response
  store : Store
  calls : List CallArgs
  deriving DecidableEq, Repr

/-- The replacement for a gateway call that threw (lines 61-64 and 226-229). -/
def cannedApology : LlmResp :=
  { text := some (lit "Sorry, I'm having trouble reaching the model right now. Please try again later."),
    meta := some [("error", MetaVal.js (JsVal.bool true))] }

/-- The `try { llmResp = await LLM.callModel(..) } catch { llmResp = .. }` block. -/
def guardedCall (LLM : CallArgs → GatewayOutcome) (args : CallArgs) : Option LlmResp :=
  match LLM args with
  | .threw => some cannedApology
  | .returned r => r

/-- The expression `llmResp?.text || "Sorry, no response."`. -/
def replyText (r : Option LlmResp) : JsString :=
  match r with
  | some { text := some t, .. } => if t.isEmpty then lit "Sorry, no response." else t
  | _ => lit "Sorry, no response."

/-- The expression `llmResp?.meta || {}`. -/
def replyMeta (r : Option LlmResp) : Meta :=
  match r with
  | some { meta := some m, .. } => m
  | _ => []

/-- The checks `!v || typeof v !== "string"` fail: `v` is a non-empty string. -/
def isNonEmptyString (v : JsVal) : Bool := v.truthy && v.isString

/-- The checks `!v || typeof v !== "string" || !v.trim()` fail. -/
def isNonBlankString (v : JsVal) : Bool :=
  v.truthy && v.isString && !(trim v.asString).isEmpty

/-- The ownership test fails: `!conv.userId || String(conv.userId) !== String(user._id)`. -/
def notOwner (conv : Conversation) (user : User) : Bool :=
  match conv.userId with
  | none => true
  | some uid => decide (uid.hex ≠ user._id.hex)

/-- Body of `POST /conversations`. -/
structure CreateBody where
  user_email : JsVal
  first_message : JsVal
  mode : Option JsString
  documentRefs : Option (List JsString)
  deriving DecidableEq, Repr

/-- The handler `createConversation`. -/
def createConversation (env : Env) (LLM : CallArgs → GatewayOutcome) (fx : Effects)
    (body : CreateBody) (s : Store) : Outcome :=
  let mode := body.mode.getD (lit "open")
  let documentRefs := body.documentRefs.getD []
  if !isNonEmptyString body.user_email then
    ⟨.error 400 (lit "user_email is required"), s, []⟩
  else if !isNonBlankString body.first_message then
    ⟨.error 400 (lit "first_message is required and must be a non-empty string"), s, []⟩
  else
    let first_message := body.first_message.asString
    match findUserByEmail s (env.normalizeEmail body.user_email.asString) with
    | none => ⟨.error 400 (lit "user not found for provided email"), s, []⟩
    | some user =>
      match conversationCreate s (fx.newId 0) (fx.now 0) user._id mode documentRefs
          (slice0 first_message 80) with
      | none => ⟨.unhandled, s, []⟩
      | some (conv, s1) =>
        match messageCreate s1 (fx.newId 1) (fx.now 1) conv._id (lit "user") first_message none with
        | none => ⟨.unhandled, s1, []⟩
        | some (userMsg, s2) =>
          let args : CallArgs :=
            { conversationId := conv._id,
              messages := [{ role := lit "user", text := first_message }],
              mode := mode, documentRefs := documentRefs }
          let llmResp := guardedCall LLM args
          match messageCreate s2 (fx.newId 2) (fx.now 2) conv._id (lit "assistant")
              (replyText llmResp) (some (replyMeta llmResp)) with
          | none => ⟨.unhandled, s2, [args]⟩
          | some (assistantMsg, s3) => ⟨.created conv [userMsg, assistantMsg], s3, [args]⟩

/-- Query string of `GET /conversations`: each parameter absent or a string. -/
structure ListQuery where
  page : Option JsString
  limit : Option JsString
  deriving DecidableEq, Repr

/-- The expression `v || d` on a query parameter: absent and empty are falsy. -/
def orDefault (v : Option JsString) (d : JsString) : JsString :=
  match v with
  | none => d
  | some x => if x.isEmpty then d else x

/-- The constant `DEFAULT_PAGE_SIZE`. -/
def DEFAULT_PAGE_SIZE : Nat := 20

/-- The local `page` of `listConversations` (line 92). -/
def pageOf (q : ListQuery) : JsNum :=
  JsNum.max (.int 1) (parseInt (orDefault q.page (lit "1")))

/-- The local `limit` of `listConversations` (line 93). -/
def limitOf (q : ListQuery) : JsNum :=
  JsNum.min (.int 100) (parseInt (orDefault q.limit (decimalNat DEFAULT_PAGE_SIZE)))

/-- The local `skip` of `listConversations` (line 94). -/
def skipOf (q : ListQuery) : JsNum :=
  JsNum.mul (JsNum.sub (pageOf q) (.int 1)) (limitOf q)

/-- The handler `listConversations`. -/
def listConversations (q : ListQuery) (s : Store) : Outcome :=
  let page := pageOf q
  let limit := limitOf q
  let skip := skipOf q
  let matching := s.conversations.filter notDeleted
  match cursorWindow skip limit (sortUpdatedDesc matching) with
  | none => ⟨.unhandled, s, []⟩
  | some items =>
    let total := matching.length
    let hasMore := JsNum.lt (JsNum.add skip (.int items.length)) (.int total)
    ⟨.listed page limit total hasMore items, s, []⟩

/-- The handler `getConversation` (`id` is `req.params.id`, `user_email` is
`req.query.user_email`). -/
def getConversation (env : Env) (id : JsString) (user_email : JsVal) (s : Store) : Outcome :=
  match env.castObjectId id with
  | none => ⟨.error 400 (lit "Invalid conversation id"), s, []⟩
  | some oid =>
    if !isNonEmptyString user_email then
      ⟨.error 400 (lit "user_email query param is required"), s, []⟩
    else
      match findUserByEmail s (env.normalizeEmail user_email.asString) with
      | none => ⟨.error 404 (lit "user not found"), s, []⟩
      | some user =>
        match findConversationById s oid with
        | none => ⟨.error 404 (lit "conversation not found"), s, []⟩
        | some conv =>
          if notOwner conv user then
            ⟨.error 403 (lit "forbidden: user does not own this conversation"), s, []⟩
          else
            ⟨.conversation conv (sortCreatedAsc (messagesOf s conv._id)), s, []⟩

/-- Body of `POST /conversations/:id/messages`. -/
structure AddBody where
  user_email : JsVal
  role : JsVal
  text : JsVal
  deriving DecidableEq, Repr

/-- The destructuring default `role = "user"`. -/
def roleOf (b : AddBody) : JsVal :=
  match b.role with
  | .undefined => .str (lit "user")
  | r => r

/-- The test `["user", "assistant", "system"].includes(role)`. -/
def roleAllowed (r : JsVal) : Bool :=
  match r with
  | .str x => validRole x
  | _ => false

/-- The list `messagesForLLM` of `addMessage` (lines 203-213), from the store
after the caller's message was created. -/
def messagesForLLM (s : Store) (cid : ObjectId) (role text : JsString) : List ContextEntry :=
  let recent := (sortCreatedDesc (messagesOf s cid)).take 20
  let window : List ContextEntry :=
    recent.reverse.map (fun m => { role := m.role, text := m.text })
  match window.getLast? with
  | none => window ++ [{ role := role, text := text }]
  | some e => if e.text ≠ text then window ++ [{ role := role, text := text }] else window

/-- The handler `addMessage`. -/
def addMessage (env : Env) (LLM : CallArgs → GatewayOutcome) (fx : Effects)
    (id : JsString) (body : AddBody) (s : Store) : Outcome :=
  let role := roleOf body
  match env.castObjectId id with
  | none => ⟨.error 400 (lit "Invalid conversation id"), s, []⟩
  | some oid =>
    if !isNonEmptyString body.user_email then
      ⟨.error 400 (lit "user_email is required"), s, []⟩
    else if !isNonBlankString body.text then
      ⟨.error 400 (lit "text is required and must be non-empty"), s, []⟩
    else if !roleAllowed role then
      ⟨.error 400 (lit "role must be one of user|assistant|system"), s, []⟩
    else
      let text := body.text.asString
      match findUserByEmail s (env.normalizeEmail body.user_email.asString) with
      | none => ⟨.error 404 (lit "user not found"), s, []⟩
      | some user =>
        match findConversationById s oid with
        | none => ⟨.error 404 (lit "conversation not found"), s, []⟩
        | some conv =>
          if notOwner conv user then
            ⟨.error 403 (lit "forbidden: user does not own this conversation"), s, []⟩
          else
            match messageCreate s (fx.newId 0) (fx.now 0) conv._id role.asString text none with
            | none => ⟨.unhandled, s, []⟩
            | some (msg, s1) =>
              let args : CallArgs :=
                { conversationId := conv._id,
                  messages := messagesForLLM s1 conv._id role.asString text,
                  mode := conv.mode, documentRefs := conv.documentRefs }
              let llmResp := guardedCall LLM args
              match messageCreate s1 (fx.newId 1) (fx.now 1) conv._id (lit "assistant")
                  (replyText llmResp) (some (replyMeta llmResp)) with
              | none => ⟨.unhandled, s1, [args]⟩
              | some (assistantMsg, s2) =>
                let s3 := saveConversation s2 conv { conv with updatedAt := fx.now 2 } (fx.now 3)
                ⟨.appended [msg, assistantMsg], s3, [args]⟩

/-- The handler `deleteConversation` (`user_email` is `req.body.user_email`). -/
def deleteConversation (env : Env) (fx : Effects) (id : JsString) (user_email : JsVal)
    (s : Store) : Outcome :=
  match env.castObjectId id with
  | none => ⟨.error 400 (lit "Invalid conversation id"), s, []⟩
  | some oid =>
    if !isNonEmptyString user_email then
      ⟨.error 400 (lit "user_email is required"), s, []⟩
    else
      match findUserByEmail s (env.normalizeEmail user_email.asString) with
      | none => ⟨.error 404 (lit "user not found"), s, []⟩
      | some user =>
        match findConversationById s oid with
        | none => ⟨.error 404 (lit "conversation not found"), s, []⟩
        | some conv =>
          if notOwner conv user then
            ⟨.error 403 (lit "forbidden: user does not own this conversation"), s, []⟩
          else
            ⟨.noContent, saveConversation s conv { conv with state := ConvState.deleted } (fx.now 0), []⟩

/-! ## Example data -/

/-- Lower-casing of one ASCII code unit. -/
def asciiLower (c : Nat) : Nat := if 0x41 ≤ c ∧ c ≤ 0x5A then c + 0x20 else c

/-- Whether a code unit is a hexadecimal digit. -/
def isHexDigit (c : Nat) : Bool :=
  (0x30 ≤ c && c ≤ 0x39) || (0x41 ≤ c && c ≤ 0x46) || (0x61 ≤ c && c ≤ 0x66)

/-- An environment for examples: ASCII lower-casing, and ObjectIds written as
24 hexadecimal digits. -/
def asciiEnv : Env :=
  { toLowerCase := fun s => s.map asciiLower
    castObjectId := fun id =>
      if id.length = 24 ∧ id.all isHexDigit = true then some ⟨id.map asciiLower⟩ else none }

/-- Effects for examples: ids `65f000000000000000000010`, `..11`, .. and a
clock that starts at 1000. -/
def sampleEffects : Effects :=
  { newId := fun k => ⟨lit "65f0000000000000000000" ++ decimalNat (10 + k)⟩
    now := fun k => 1000 + k }

/-- A gateway for examples that always answers `ok`. -/
def okGateway : CallArgs → GatewayOutcome :=
  fun _ => .returned (some { text := some (lit "ok"), meta := none })

/-- A gateway for examples that always throws. -/
def throwingGateway : CallArgs → GatewayOutcome := fun _ => .threw

/-- Example user `a@x.com`. -/
def alice : User :=
  { _id := ⟨lit "65f000000000000000000001"⟩, name := none, email := some (lit "a@x.com"),
    createdAt := 1 }

/-- Example user `b@x.com`. -/
def bob : User :=
  { _id := ⟨lit "65f000000000000000000002"⟩, name := none, email := some (lit "b@x.com"),
    createdAt := 2 }

/-- Example conversation owned by `alice`. -/
def aliceConv : Conversation :=
  { _id := ⟨lit "65f000000000000000000003"⟩, userId := some alice._id,
    title := some (lit "Hello there, how are you?"), mode := lit "open", documentRefs := [],
    state := ConvState.active, createdAt := 10, updatedAt := 12 }

/-- First message of `aliceConv`. -/
def aliceMsg : Message :=
  { _id := ⟨lit "65f000000000000000000004"⟩, conversationId := aliceConv._id,
    role := lit "user", text := lit "Hello there, how are you?", meta := none,
    createdAt := 11, updatedAt := 11 }

/-- Reply to `aliceMsg`. -/
def aliceReply : Message :=
  { _id := ⟨lit "65f000000000000000000005"⟩, conversationId := aliceConv._id,
    role := lit "assistant", text := lit "Fine.", meta := some [],
    createdAt := 12, updatedAt := 12 }

/-- Example store: two users, one conversation of two messages. -/
def sampleStore : Store :=
  { users := [alice, bob], conversations := [aliceConv], messages := [aliceMsg, aliceReply] }

/-- Example configuration with provider URL and model set. -/
def sampleConfig : ProviderConfig :=
  { providerUrl := some (lit "https://llm.example/v1/chat/completions"),
    apiKey := some (lit "k"), model := some (lit "m1") }

/-- Example grounded call with one document reference. -/
def groundedCall : CallArgs :=
  { conversationId := aliceConv._id, messages := [{ role := lit "user", text := lit "hi" }],
    mode := lit "grounded", documentRefs := [lit "doc-1"] }

/-- Example provider that answers with one choice. -/
def samplePost : HttpRequest → AxiosOutcome := fun _ => .resolved (some [some (lit "yo")])

/-- Route parameter naming `aliceConv`. -/
def aliceConvId : JsString := lit "65f000000000000000000003"

/-- Example body of `POST /conversations` (the email needs normalising). -/
def sampleCreateBody : CreateBody :=
  { user_email := .str (lit " A@X.com "), first_message := .str (lit "Hello there, how are you?"),
    mode := none, documentRefs := none }

/-- Example body of `POST /conversations/:id/messages` sent by the owner. -/
def sampleAddBody : AddBody :=
  { user_email := .str (lit "a@x.com"), role := .undefined, text := .str (lit "And you?") }

/-- Example body of `POST /conversations/:id/messages` sent by `bob`. -/
def bobAddBody : AddBody :=
  { user_email := .str (lit "b@x.com"), role := .str (lit "user"), text := .str (lit "hi") }

/-- The message 79 `x`, U+1F600 (the pair 0xD83D 0xDE00), `tail`: its 80th code
unit is the first half of a surrogate pair. -/
def emojiMessage : JsString := List.replicate 79 0x78 ++ [0xD83D, 0xDE00] ++ lit "tail"

/-- Body of `POST /conversations` whose first message is `emojiMessage`. -/
def emojiCreateBody : CreateBody :=
  { user_email := .str (lit "a@x.com"), first_message := .str emojiMessage,
    mode := none, documentRefs := none }

/-! # Theorems -/

/-! ## Model gateway -/

/-- C10: when the provider URL or the model identifier is unset (absent or
empty), `callModel` returns exactly the text "Model provider not configured."
with meta `error: "missing_provider"` and sends no request; in particular the
result does not depend on what the provider would answer. -/
theorem callModel_missing_provider (cfg : ProviderConfig) (post : HttpRequest → AxiosOutcome)
    (a : CallArgs)
    (h : cfg.providerUrl = none ∨ cfg.providerUrl = some [] ∨
         cfg.model = none ∨ cfg.model = some []) :
    callModel cfg post a =
      ({ text := some (lit "Model provider not configured."),
         meta := some [("error", MetaVal.js (JsVal.str (lit "missing_provider")))] }, []) ∧
    (callModel cfg post a).2 = [] ∧
    ∀ post2 : HttpRequest → AxiosOutcome, callModel cfg post2 a = callModel cfg post a := by
  have hu : (unset cfg.providerUrl || unset cfg.model) = true := by
    rcases h with h | h | h | h <;> simp [h, unset]
  have key : ∀ p : HttpRequest → AxiosOutcome, callModel cfg p a =
      ({ text := some (lit "Model provider not configured."),
         meta := some [("error", MetaVal.js (JsVal.str (lit "missing_provider")))] }, []) := by
    intro p
    unfold callModel
    rw [if_pos hu]
  refine ⟨key post, ?_, ?_⟩
  · rw [key post]
  · intro post2
    rw [key post2, key post]

/-- Witness for C10 at a configuration with no model identifier. -/
theorem callModel_missing_provider_witness :
    callModel { sampleConfig with model := none } samplePost groundedCall =
      ({ text := some (lit "Model provider not configured."),
         meta := some [("error", MetaVal.js (JsVal.str (lit "missing_provider")))] }, []) :=
  (callModel_missing_provider { sampleConfig with model := none } samplePost groundedCall
    (Or.inr (Or.inr (Or.inl rfl)))).1

/-- C8 as stated fails: in grounded mode with the single reference `doc-1` the
second entry sent to the provider has content `[DOCUMENTS]` + newline + `doc-1`,
not the references joined with newlines (`doc-1`). -/
theorem callModel_documents_entry_has_header :
    (callModel sampleConfig samplePost groundedCall).2.map (fun r => r.messages) =
      [[{ role := lit "system", content := lit "You are an assistant. Answer concisely." },
        { role := lit "system", content := lit "[DOCUMENTS]\ndoc-1" },
        { role := lit "user", content := lit "hi" }]] ∧
    lit "[DOCUMENTS]\ndoc-1" ≠ join (lit "\n") groundedCall.documentRefs := by
  decide

/-- C8 (amended): with provider URL and model configured, `callModel` sends
exactly one request, whose message list is the fixed system instruction, then
(iff mode is grounded and there are document references) one system entry whose
content is the line `[DOCUMENTS]` followed by the references joined with
newlines, then one entry per context message, in order, same role, content equal
to its text; the length is `len(messages) + 1`, or `+ 2` in the grounded case. -/
theorem callModel_sends_chat_messages (cfg : ProviderConfig) (post : HttpRequest → AxiosOutcome)
    (a : CallArgs) (url model : JsString)
    (hurl : cfg.providerUrl = some url) (hurl0 : url ≠ [])
    (hmodel : cfg.model = some model) (hmodel0 : model ≠ []) :
    ∃ req, (callModel cfg post a).2 = [req] ∧ req.url = url ∧ req.model = model ∧
      req.messages =
        [{ role := lit "system", content := lit "You are an assistant. Answer concisely." }]
          ++ (if a.mode = lit "grounded" ∧ a.documentRefs ≠ [] then
                [{ role := lit "system",
                   content := lit "[DOCUMENTS]\n" ++ join (lit "\n") a.documentRefs }]
              else [])
          ++ a.messages.map (fun m => { role := m.role, content := m.text }) ∧
      req.messages.length =
        a.messages.length + (if a.mode = lit "grounded" ∧ a.documentRefs ≠ [] then 2 else 1) := by
  have hu : (unset cfg.providerUrl || unset cfg.model) = false := by
    cases url with
    | nil => exact absurd rfl hurl0
    | cons c cs =>
      cases model with
      | nil => exact absurd rfl hmodel0
      | cons d ds => simp [hurl, hmodel, unset]
  have hmsgs : chatMessages a =
      [{ role := lit "system", content := lit "You are an assistant. Answer concisely." }]
          ++ (if a.mode = lit "grounded" ∧ a.documentRefs ≠ [] then
                [{ role := lit "system",
                   content := lit "[DOCUMENTS]\n" ++ join (lit "\n") a.documentRefs }]
              else [])
          ++ a.messages.map (fun m => { role := m.role, content := m.text }) := by
    unfold chatMessages systemInstruction documentsEntry
    by_cases hm : a.mode = lit "grounded"
    · cases hd : a.documentRefs with
      | nil => simp [hm]
      | cons r rs => simp [hm]
    · simp [hm]
  have hlen : (chatMessages a).length =
      a.messages.length + (if a.mode = lit "grounded" ∧ a.documentRefs ≠ [] then 2 else 1) := by
    rw [hmsgs]
    by_cases hc : a.mode = lit "grounded" ∧ a.documentRefs ≠ []
    · simp [hc]
    · simp only [if_neg hc]; simp
  unfold callModel
  simp only [hu, Bool.false_eq_true, if_false]
  cases post _ with
  | resolved choices => exact ⟨_, rfl, by simp [hurl], by simp [hmodel], hmsgs, hlen⟩
  | rejected d m => exact ⟨_, rfl, by simp [hurl], by simp [hmodel], hmsgs, hlen⟩

/-- Witness for C8 (amended) at the grounded example call. -/
theorem callModel_sends_chat_messages_witness :
    ∃ req, (callModel sampleConfig samplePost groundedCall).2 = [req] ∧
      req.url = lit "https://llm.example/v1/chat/completions" ∧ req.model = lit "m1" ∧
      req.messages =
        [{ role := lit "system", content := lit "You are an assistant. Answer concisely." }]
          ++ (if groundedCall.mode = lit "grounded" ∧ groundedCall.documentRefs ≠ [] then
                [{ role := lit "system",
                   content := lit "[DOCUMENTS]\n" ++ join (lit "\n") groundedCall.documentRefs }]
              else [])
          ++ groundedCall.messages.map (fun m => { role := m.role, content := m.text }) ∧
      req.messages.length =
        groundedCall.messages.length +
          (if groundedCall.mode = lit "grounded" ∧ groundedCall.documentRefs ≠ [] then 2 else 1) :=
  callModel_sends_chat_messages sampleConfig samplePost groundedCall
    (lit "https://llm.example/v1/chat/completions") (lit "m1") rfl (by decide) rfl (by decide)

/-! ## Validation helpers -/

theorem isNonEmptyString_iff (v : JsVal) :
    isNonEmptyString v = true ↔ ∃ e, v = .str e ∧ e ≠ [] := by
  cases v <;> simp [isNonEmptyString, JsVal.truthy, JsVal.isString]

theorem trim_nil : trim [] = [] := rfl

theorem isNonBlankString_iff (v : JsVal) :
    isNonBlankString v = true ↔ ∃ t, v = .str t ∧ trim t ≠ [] := by
  cases v with
  | str s =>
    cases s with
    | nil => simp [isNonBlankString, JsVal.truthy, JsVal.isString, JsVal.asString, trim_nil]
    | cons c cs =>
      simp [isNonBlankString, JsVal.truthy, JsVal.isString, JsVal.asString, List.isEmpty_iff]
  | _ => simp [isNonBlankString, JsVal.truthy, JsVal.isString, JsVal.asString]

theorem roleAllowed_iff (v : JsVal) :
    roleAllowed v = true ↔ ∃ r, v = .str r ∧ validRole r = true := by
  cases v <;> simp [roleAllowed]

theorem messageCreate_ok (s : Store) (id : ObjectId) (t : Nat) (cid : ObjectId)
    (role text : JsString) (meta : Option Meta)
    (hr : validRole role = true) (ht : text ≠ []) :
    messageCreate s id t cid role text meta =
      some ({ _id := id, conversationId := cid, role := role, text := text,
              meta := minimize meta, createdAt := t, updatedAt := t },
            { s with messages := s.messages ++
                [storedMessage
                  { _id := id, conversationId := cid, role := role, text := text,
                    meta := minimize meta, createdAt := t, updatedAt := t }] }) := by
  cases text with
  | nil => exact absurd rfl ht
  | cons c cs => simp [messageCreate, hr]

theorem toWellFormed_ne_nil (s : JsString) (h : s ≠ []) : toWellFormed s ≠ [] := by
  match s, h with
  | [c], _ =>
    unfold toWellFormed
    split <;> simp
  | c :: d :: rest, _ =>
    unfold toWellFormed
    split
    · split <;> simp
    · split <;> simp

theorem replyText_ne_nil (r : Option LlmResp) : replyText r ≠ [] := by
  unfold replyText
  split
  · rename_i t _
    cases t with
    | nil => decide
    | cons c cs => simp
  · decide

theorem validRole_assistant : validRole (lit "assistant") = true := by decide

theorem validRole_user : validRole (lit "user") = true := by decide

/-! ## Context window of `addMessage` -/

theorem messagesForLLM_length (s : Store) (cid : ObjectId) (role text : JsString) :
    (messagesForLLM s cid role text).length ≤ 21 := by
  have hw : ((((sortCreatedDesc (messagesOf s cid)).take 20).reverse.map
      (fun m => ({ role := m.role, text := m.text } : ContextEntry)))).length ≤ 20 := by
    simp [List.length_take]
  unfold messagesForLLM
  simp only
  split
  · simp only [List.length_append, List.length_singleton]; omega
  · split
    · simp only [List.length_append, List.length_singleton]; omega
    · omega

theorem messagesForLLM_last (s : Store) (cid : ObjectId) (role text : JsString) :
    (messagesForLLM s cid role text).getLast?.map (fun e => e.text) = some text := by
  unfold messagesForLLM
  simp only
  split
  · simp
  · rename_i e he
    split
    · simp
    · rename_i hne
      simp only [ne_eq, Decidable.not_not] at hne
      rw [he]
      simp [hne]

theorem messagesForLLM_ne_nil (s : Store) (cid : ObjectId) (role text : JsString) :
    messagesForLLM s cid role text ≠ [] := by
  intro h
  have := messagesForLLM_last s cid role text
  rw [h] at this
  simp at this

/-! ## `addMessage` on a valid request -/

theorem addMessage_of_valid (env : Env) (LLM : CallArgs → GatewayOutcome) (fx : Effects)
    (id : JsString) (body : AddBody) (s : Store) (oid : ObjectId) (e t r : JsString)
    (u : User) (conv : Conversation)
    (hid : env.castObjectId id = some oid)
    (he : body.user_email = .str e) (he0 : e ≠ [])
    (ht : body.text = .str t) (ht0 : trim t ≠ [])
    (hr : roleOf body = .str r) (hr0 : validRole r = true)
    (hu : findUserByEmail s (env.normalizeEmail e) = some u)
    (hc : findConversationById s oid = some conv) (ho : notOwner conv u = false) :
    addMessage env LLM fx id body s =
      let msg : Message :=
        { _id := fx.newId 0, conversationId := conv._id, role := r, text := t, meta := none,
          createdAt := fx.now 0, updatedAt := fx.now 0 }
      let s1 : Store := { s with messages := s.messages ++ [storedMessage msg] }
      let args : CallArgs :=
        { conversationId := conv._id, messages := messagesForLLM s1 conv._id r t,
          mode := conv.mode, documentRefs := conv.documentRefs }
      let asst : Message :=
        { _id := fx.newId 1, conversationId := conv._id, role := lit "assistant",
          text := replyText (guardedCall LLM args),
          meta := minimize (some (replyMeta (guardedCall LLM args))),
          createdAt := fx.now 1, updatedAt := fx.now 1 }
      let s2 : Store := { s1 with messages := s1.messages ++ [storedMessage asst] }
      ⟨.appended [msg, asst],
        saveConversation s2 conv { conv with updatedAt := fx.now 2 } (fx.now 3), [args]⟩ := by
  have h1 : isNonEmptyString (.str e) = true := (isNonEmptyString_iff _).2 ⟨e, rfl, he0⟩
  have h2 : isNonBlankString (.str t) = true := (isNonBlankString_iff _).2 ⟨t, rfl, ht0⟩
  have h3 : roleAllowed (.str r) = true := (roleAllowed_iff _).2 ⟨r, rfl, hr0⟩
  have ht1 : t ≠ [] := by
    intro h0
    rw [h0] at ht0
    exact ht0 trim_nil
  unfold addMessage
  simp only [hid, he, ht, hr, h1, h2, h3, Bool.not_true, Bool.false_eq_true, if_false,
    JsVal.asString, hu, hc, ho]
  rw [messageCreate_ok _ _ _ _ _ _ _ hr0 ht1]
  simp only
  rw [messageCreate_ok _ _ _ _ _ _ _ validRole_assistant (replyText_ne_nil _)]
  rfl

theorem addMessage_created_inv (env : Env) (LLM : CallArgs → GatewayOutcome) (fx : Effects)
    (id : JsString) (body : AddBody) (s : Store)
    (h : (addMessage env LLM fx id body s).response.status = 201) :
    ∃ oid e t r u conv,
      env.castObjectId id = some oid ∧ body.user_email = .str e ∧ e ≠ [] ∧
      body.text = .str t ∧ trim t ≠ [] ∧ roleOf body = .str r ∧ validRole r = true ∧
      findUserByEmail s (env.normalizeEmail e) = some u ∧
      findConversationById s oid = some conv ∧ notOwner conv u = false := by
  cases hid : env.castObjectId id with
  | none => simp [addMessage, hid, Response.status] at h
  | some oid =>
    by_cases h1 : isNonEmptyString body.user_email = true
    swap
    · simp [addMessage, hid, h1, Response.status] at h
    by_cases h2 : isNonBlankString body.text = true
    swap
    · simp [addMessage, hid, h1, h2, Response.status] at h
    by_cases h3 : roleAllowed (roleOf body) = true
    swap
    · simp [addMessage, hid, h1, h2, h3, Response.status] at h
    obtain ⟨e, he, he0⟩ := (isNonEmptyString_iff _).1 h1
    obtain ⟨t, ht, ht0⟩ := (isNonBlankString_iff _).1 h2
    obtain ⟨r, hr, hr0⟩ := (roleAllowed_iff _).1 h3
    have h1s : isNonEmptyString (.str e) = true := he ▸ h1
    have h2s : isNonBlankString (.str t) = true := ht ▸ h2
    have h3s : roleAllowed (.str r) = true := hr ▸ h3
    cases hu : findUserByEmail s (env.normalizeEmail e) with
    | none => simp [addMessage, hid, he, ht, hr, h1s, h2s, h3s, JsVal.asString, hu, Response.status] at h
    | some u =>
      cases hc : findConversationById s oid with
      | none =>
        simp [addMessage, hid, he, ht, hr, h1s, h2s, h3s, JsVal.asString, hu, hc, Response.status] at h
      | some conv =>
        cases ho : notOwner conv u with
        | true =>
          simp [addMessage, hid, he, ht, hr, h1s, h2s, h3s, JsVal.asString, hu, hc, ho,
            Response.status] at h
        | false => exact ⟨oid, e, t, r, u, conv, rfl, he, he0, ht, ht0, hr, hr0, hu, hc, ho⟩

/-- C3: whenever `addMessage` succeeds (201), it invoked the gateway exactly
once, with a context of at least one and at most 21 entries whose last entry
has the text of the triggering message. -/
theorem addMessage_context_window (env : Env) (LLM : CallArgs → GatewayOutcome) (fx : Effects)
    (id : JsString) (body : AddBody) (s : Store)
    (h : (addMessage env LLM fx id body s).response.status = 201) :
    ∃ t args, body.text = .str t ∧ (addMessage env LLM fx id body s).calls = [args] ∧
      args.messages ≠ [] ∧ args.messages.length ≤ 21 ∧
      args.messages.getLast?.map (fun e => e.text) = some t := by
  obtain ⟨oid, e, t, r, u, conv, hid, he, he0, ht, ht0, hr, hr0, hu, hc, ho⟩ :=
    addMessage_created_inv env LLM fx id body s h
  rw [addMessage_of_valid env LLM fx id body s oid e t r u conv hid he he0 ht ht0 hr hr0 hu hc ho]
  exact ⟨t, _, ht, rfl, messagesForLLM_ne_nil _ _ _ _, messagesForLLM_length _ _ _ _,
    messagesForLLM_last _ _ _ _⟩

/-! ## `createConversation` on a valid request -/

theorem validMode_of_mode (mode : Option JsString)
    (h : mode = none ∨ mode = some (lit "open") ∨ mode = some (lit "grounded")) :
    validMode (mode.getD (lit "open")) = true := by
  rcases h with h | h | h <;> subst h <;> decide

theorem createConversation_of_valid (env : Env) (LLM : CallArgs → GatewayOutcome) (fx : Effects)
    (body : CreateBody) (s : Store) (e m : JsString) (u : User)
    (he : body.user_email = .str e) (he0 : e ≠ [])
    (hm : body.first_message = .str m) (hm0 : trim m ≠ [])
    (hu : findUserByEmail s (env.normalizeEmail e) = some u)
    (hmode : validMode (body.mode.getD (lit "open")) = true) :
    createConversation env LLM fx body s =
      let conv : Conversation :=
        { _id := fx.newId 0, userId := some u._id, title := some (m.take 80),
          mode := body.mode.getD (lit "open"), documentRefs := body.documentRefs.getD [],
          state := ConvState.active, createdAt := fx.now 0, updatedAt := fx.now 0 }
      let userMsg : Message :=
        { _id := fx.newId 1, conversationId := conv._id, role := lit "user", text := m,
          meta := none, createdAt := fx.now 1, updatedAt := fx.now 1 }
      let args : CallArgs :=
        { conversationId := conv._id, messages := [{ role := lit "user", text := m }],
          mode := body.mode.getD (lit "open"), documentRefs := body.documentRefs.getD [] }
      let asst : Message :=
        { _id := fx.newId 2, conversationId := conv._id, role := lit "assistant",
          text := replyText (guardedCall LLM args),
          meta := minimize (some (replyMeta (guardedCall LLM args))),
          createdAt := fx.now 2, updatedAt := fx.now 2 }
      ⟨.created conv [userMsg, asst],
        { users := s.users, conversations := s.conversations ++ [storedConversation conv],
          messages := s.messages ++ [storedMessage userMsg] ++ [storedMessage asst] },
        [args]⟩ := by
  have h1 : isNonEmptyString (.str e) = true := (isNonEmptyString_iff _).2 ⟨e, rfl, he0⟩
  have h2 : isNonBlankString (.str m) = true := (isNonBlankString_iff _).2 ⟨m, rfl, hm0⟩
  have hm1 : m ≠ [] := by
    intro h0
    rw [h0] at hm0
    exact hm0 trim_nil
  unfold createConversation
  simp only [he, hm, h1, h2, Bool.not_true, Bool.false_eq_true, if_false, JsVal.asString, hu,
    conversationCreate, hmode, if_true, slice0]
  rw [messageCreate_ok _ _ _ _ _ _ _ validRole_user hm1]
  simp only
  rw [messageCreate_ok _ _ _ _ _ _ _ validRole_assistant (replyText_ne_nil _)]
  rfl

theorem replyText_of_threw (LLM : CallArgs → GatewayOutcome) (a : CallArgs)
    (h : LLM a = .threw) :
    replyText (guardedCall LLM a) =
        lit "Sorry, I'm having trouble reaching the model right now. Please try again later." ∧
      replyMeta (guardedCall LLM a) = [("error", MetaVal.js (JsVal.bool true))] := by
  simp only [guardedCall, h, cannedApology, replyText, replyMeta]
  exact ⟨by decide, trivial⟩

theorem storedMessage_user (id cid : ObjectId) (m : JsString) (t : Nat)
    (hwf : toWellFormed m = m) :
    storedMessage { _id := id, conversationId := cid, role := lit "user", text := m,
                    meta := none, createdAt := t, updatedAt := t } =
      { _id := id, conversationId := cid, role := lit "user", text := m,
        meta := none, createdAt := t, updatedAt := t } := by
  have hrole : toWellFormed (lit "user") = lit "user" := by decide
  simp [storedMessage, hwf, hrole]

set_option maxRecDepth 20000 in
/-- C2 as stated fails: for `first_message` = 79 `x`, U+1F600 (a surrogate
pair), `tail`, a valid call answers 201 but the Conversation it stores has the
title 79 `x` followed by U+FFFD, which is not the first 80 code units of
`first_message` (they end in the lone surrogate 0xD83D, which the store cannot
hold), nor its first 80 code points (its first 81 code units). -/
theorem createConversation_title_cut_in_surrogate_pair :
    (createConversation asciiEnv okGateway sampleEffects emojiCreateBody
      sampleStore).response.status = 201 ∧
    (createConversation asciiEnv okGateway sampleEffects emojiCreateBody
      sampleStore).store.conversations.map (fun c => c.title) =
        [aliceConv.title, some (List.replicate 79 0x78 ++ [0xFFFD])] ∧
    emojiMessage.take 80 = List.replicate 79 0x78 ++ [0xD83D] ∧
    some (List.replicate 79 0x78 ++ [0xFFFD]) ≠ some (emojiMessage.take 80) ∧
    some (List.replicate 79 0x78 ++ [0xFFFD]) ≠ some (emojiMessage.take 81) := by
  decide

/-- C2 (amended): a valid `createConversation` call whose `first_message` has
no lone surrogate and whose first 80 code units do not end inside a surrogate
pair answers 201, stores exactly one new Conversation, owned by the resolved
user and titled with the first 80 UTF-16 code units of `first_message` (all of
it when it is no longer than that), and stores exactly two new Messages of that
conversation: role `user` with text `first_message`, then role `assistant`; the
response lists these two in that order (the assistant Message is stored in its
stored form: same id, role and conversation, strings made well-formed). -/
theorem createConversation_creates (env : Env) (LLM : CallArgs → GatewayOutcome) (fx : Effects)
    (body : CreateBody) (s : Store) (e m : JsString) (u : User)
    (he : body.user_email = .str e) (he0 : e ≠ [])
    (hm : body.first_message = .str m) (hm0 : trim m ≠ [])
    (hu : findUserByEmail s (trim (env.toLowerCase e)) = some u)
    (hmode : body.mode = none ∨ body.mode = some (lit "open") ∨
      body.mode = some (lit "grounded"))
    (hwf : toWellFormed m = m) (hcut : toWellFormed (m.take 80) = m.take 80) :
    ∃ conv userMsg asst,
      (createConversation env LLM fx body s).response = .created conv [userMsg, asst] ∧
      (createConversation env LLM fx body s).response.status = 201 ∧
      (createConversation env LLM fx body s).store.conversations
        = s.conversations ++ [storedConversation conv] ∧
      (storedConversation conv)._id = conv._id ∧
      (storedConversation conv).userId = some u._id ∧ conv.userId = some u._id ∧
      (storedConversation conv).title = some (m.take 80) ∧ conv.title = some (m.take 80) ∧
      (m.length ≤ 80 → (storedConversation conv).title = some m) ∧
      (createConversation env LLM fx body s).store.messages
        = s.messages ++ [userMsg, storedMessage asst] ∧
      userMsg.conversationId = conv._id ∧ userMsg.role = lit "user" ∧ userMsg.text = m ∧
      asst.conversationId = conv._id ∧ asst.role = lit "assistant" ∧
      (storedMessage asst)._id = asst._id ∧
      (storedMessage asst).conversationId = conv._id ∧
      (storedMessage asst).role = lit "assistant" ∧
      (storedMessage asst).text = toWellFormed asst.text ∧
      (createConversation env LLM fx body s).store.users = s.users := by
  rw [createConversation_of_valid env LLM fx body s e m u he he0 hm hm0 hu
    (validMode_of_mode _ hmode)]
  have hrole : toWellFormed (lit "assistant") = lit "assistant" := by decide
  refine ⟨_, _, _, rfl, rfl, rfl, rfl, rfl, rfl, ?_, rfl, ?_, ?_, rfl, rfl, rfl, rfl, rfl, rfl,
    rfl, ?_, rfl, rfl⟩
  · simp [storedConversation, hcut]
  · intro hlen
    simp [storedConversation, List.take_of_length_le hlen, hwf]
  · simp [storedMessage_user _ _ m _ hwf]
  · simp [storedMessage, hrole]

/-- C9: for every outcome of the gateway call, a valid `createConversation`
call and an `addMessage` call that passes validation and the ownership check
answer 201 and persist an assistant Message with non-empty text; when the
gateway call throws, that Message has the canned apology text and meta exactly
`error: true`. (`asst` is the Message as built and returned, `storedMessage asst`
the document persisted.) -/
theorem gateway_failure_not_propagated :
    (∀ (env : Env) (LLM : CallArgs → GatewayOutcome) (fx : Effects) (body : CreateBody)
        (s : Store) (e m : JsString) (u : User),
      body.user_email = .str e → e ≠ [] → body.first_message = .str m → trim m ≠ [] →
      findUserByEmail s (trim (env.toLowerCase e)) = some u →
      (body.mode = none ∨ body.mode = some (lit "open") ∨ body.mode = some (lit "grounded")) →
      ∃ conv userMsg asst args,
        (createConversation env LLM fx body s).response = .created conv [userMsg, asst] ∧
        (createConversation env LLM fx body s).response.status = 201 ∧
        (createConversation env LLM fx body s).store.messages
          = s.messages ++ [storedMessage userMsg, storedMessage asst] ∧
        (createConversation env LLM fx body s).calls = [args] ∧
        asst.role = lit "assistant" ∧ asst.text ≠ [] ∧
        (storedMessage asst).role = lit "assistant" ∧ (storedMessage asst).text ≠ [] ∧
        (LLM args = .threw →
          storedMessage asst = asst ∧
          asst.text = lit
            "Sorry, I'm having trouble reaching the model right now. Please try again later." ∧
          asst.meta = some [("error", MetaVal.js (JsVal.bool true))])) ∧
    (∀ (env : Env) (LLM : CallArgs → GatewayOutcome) (fx : Effects) (id : JsString)
        (body : AddBody) (s : Store) (oid : ObjectId) (e t r : JsString) (u : User)
        (conv : Conversation),
      env.castObjectId id = some oid → body.user_email = .str e → e ≠ [] →
      body.text = .str t → trim t ≠ [] → roleOf body = .str r → validRole r = true →
      findUserByEmail s (trim (env.toLowerCase e)) = some u →
      findConversationById s oid = some conv → conv.userId = some u._id →
      ∃ msg asst args,
        (addMessage env LLM fx id body s).response = .appended [msg, asst] ∧
        (addMessage env LLM fx id body s).response.status = 201 ∧
        (addMessage env LLM fx id body s).store.messages
          = s.messages ++ [storedMessage msg, storedMessage asst] ∧
        (addMessage env LLM fx id body s).calls = [args] ∧
        asst.role = lit "assistant" ∧ asst.text ≠ [] ∧
        (storedMessage asst).role = lit "assistant" ∧ (storedMessage asst).text ≠ [] ∧
        (LLM args = .threw →
          storedMessage asst = asst ∧
          asst.text = lit
            "Sorry, I'm having trouble reaching the model right now. Please try again later." ∧
          asst.meta = some [("error", MetaVal.js (JsVal.bool true))])) := by
  have hrole : toWellFormed (lit "assistant") = lit "assistant" := by decide
  have hsorry : toWellFormed (lit
      "Sorry, I'm having trouble reaching the model right now. Please try again later.") = lit
      "Sorry, I'm having trouble reaching the model right now. Please try again later." := by
    decide
  have hthrown : ∀ (LLM : CallArgs → GatewayOutcome) (a : CallArgs) (id cid : ObjectId)
      (t : Nat), LLM a = .threw →
      storedMessage
          { _id := id, conversationId := cid, role := lit "assistant",
            text := replyText (guardedCall LLM a),
            meta := minimize (some (replyMeta (guardedCall LLM a))),
            createdAt := t, updatedAt := t } =
        { _id := id, conversationId := cid, role := lit "assistant",
          text := replyText (guardedCall LLM a),
          meta := minimize (some (replyMeta (guardedCall LLM a))),
          createdAt := t, updatedAt := t } ∧
      replyText (guardedCall LLM a) = lit
        "Sorry, I'm having trouble reaching the model right now. Please try again later." ∧
      minimize (some (replyMeta (guardedCall LLM a)))
        = some [("error", MetaVal.js (JsVal.bool true))] := by
    intro LLM a id cid t hthrew
    obtain ⟨h1, h2⟩ := replyText_of_threw LLM a hthrew
    rw [h1, h2]
    refine ⟨?_, rfl, rfl⟩
    simp [storedMessage, hrole, hsorry, minimize, storedMeta, MetaVal.stored]
  constructor
  · intro env LLM fx body s e m u he he0 hm hm0 hu hmode
    rw [createConversation_of_valid env LLM fx body s e m u he he0 hm hm0 hu
      (validMode_of_mode _ hmode)]
    refine ⟨_, _, _, _, rfl, rfl, by simp, rfl, rfl, replyText_ne_nil _, ?_, ?_, ?_⟩
    · simp [storedMessage, hrole]
    · exact toWellFormed_ne_nil _ (replyText_ne_nil _)
    · intro hthrew
      exact hthrown LLM _ _ _ _ hthrew
  · intro env LLM fx id body s oid e t r u conv hid he he0 ht ht0 hr hr0 hu hc hown
    have ho : notOwner conv u = false := by simp [notOwner, hown]
    rw [addMessage_of_valid env LLM fx id body s oid e t r u conv hid he he0 ht ht0 hr hr0 hu
      hc ho]
    refine ⟨_, _, _, rfl, rfl, ?_, rfl, rfl, replyText_ne_nil _, ?_, ?_, ?_⟩
    · simp [saveConversation]
      split <;> simp
    · simp [storedMessage, hrole]
    · exact toWellFormed_ne_nil _ (replyText_ne_nil _)
    · intro hthrew
      exact hthrown LLM _ _ _ _ hthrew

/-- Witness for C3: the owner appends a message to the example conversation. -/
theorem addMessage_context_window_witness :
    (addMessage asciiEnv okGateway sampleEffects aliceConvId sampleAddBody
      sampleStore).response.status = 201 ∧
    ∃ t args, sampleAddBody.text = .str t ∧
      (addMessage asciiEnv okGateway sampleEffects aliceConvId sampleAddBody
        sampleStore).calls = [args] ∧
      args.messages ≠ [] ∧ args.messages.length ≤ 21 ∧
      args.messages.getLast?.map (fun e => e.text) = some t :=
  ⟨by decide,
   addMessage_context_window asciiEnv okGateway sampleEffects aliceConvId sampleAddBody
     sampleStore (by decide)⟩

/-- Witness for C2 (amended): `alice` opens a conversation. -/
theorem createConversation_creates_witness :
    ∃ conv userMsg asst,
      (createConversation asciiEnv okGateway sampleEffects sampleCreateBody
        sampleStore).response = .created conv [userMsg, asst] ∧
      (createConversation asciiEnv okGateway sampleEffects sampleCreateBody
        sampleStore).response.status = 201 ∧
      (createConversation asciiEnv okGateway sampleEffects sampleCreateBody
        sampleStore).store.conversations = sampleStore.conversations ++ [storedConversation conv] ∧
      (storedConversation conv)._id = conv._id ∧
      (storedConversation conv).userId = some alice._id ∧ conv.userId = some alice._id ∧
      (storedConversation conv).title = some ((lit "Hello there, how are you?").take 80) ∧
      conv.title = some ((lit "Hello there, how are you?").take 80) ∧
      ((lit "Hello there, how are you?").length ≤ 80 →
        (storedConversation conv).title = some (lit "Hello there, how are you?")) ∧
      (createConversation asciiEnv okGateway sampleEffects sampleCreateBody
        sampleStore).store.messages = sampleStore.messages ++ [userMsg, storedMessage asst] ∧
      userMsg.conversationId = conv._id ∧ userMsg.role = lit "user" ∧
      userMsg.text = lit "Hello there, how are you?" ∧
      asst.conversationId = conv._id ∧ asst.role = lit "assistant" ∧
      (storedMessage asst)._id = asst._id ∧
      (storedMessage asst).conversationId = conv._id ∧
      (storedMessage asst).role = lit "assistant" ∧
      (storedMessage asst).text = toWellFormed asst.text ∧
      (createConversation asciiEnv okGateway sampleEffects sampleCreateBody
        sampleStore).store.users = sampleStore.users :=
  createConversation_creates asciiEnv okGateway sampleEffects sampleCreateBody sampleStore
    (lit " A@X.com ") (lit "Hello there, how are you?") alice rfl (by decide) rfl (by decide)
    (by decide) (Or.inl rfl) (by decide) (by decide)

/-- Witness for C9: both handlers against a gateway that throws. -/
theorem gateway_failure_not_propagated_witness :
    (∃ conv userMsg asst args,
      (createConversation asciiEnv throwingGateway sampleEffects sampleCreateBody
        sampleStore).response = .created conv [userMsg, asst] ∧
      (createConversation asciiEnv throwingGateway sampleEffects sampleCreateBody
        sampleStore).response.status = 201 ∧
      (createConversation asciiEnv throwingGateway sampleEffects sampleCreateBody
        sampleStore).store.messages
          = sampleStore.messages ++ [storedMessage userMsg, storedMessage asst] ∧
      (createConversation asciiEnv throwingGateway sampleEffects sampleCreateBody
        sampleStore).calls = [args] ∧
      asst.role = lit "assistant" ∧ asst.text ≠ [] ∧
      (storedMessage asst).role = lit "assistant" ∧ (storedMessage asst).text ≠ [] ∧
      (throwingGateway args = .threw →
        storedMessage asst = asst ∧
        asst.text = lit
          "Sorry, I'm having trouble reaching the model right now. Please try again later." ∧
        asst.meta = some [("error", MetaVal.js (JsVal.bool true))])) ∧
    (∃ msg asst args,
      (addMessage asciiEnv throwingGateway sampleEffects aliceConvId sampleAddBody
        sampleStore).response = .appended [msg, asst] ∧
      (addMessage asciiEnv throwingGateway sampleEffects aliceConvId sampleAddBody
        sampleStore).response.status = 201 ∧
      (addMessage asciiEnv throwingGateway sampleEffects aliceConvId sampleAddBody
        sampleStore).store.messages
          = sampleStore.messages ++ [storedMessage msg, storedMessage asst] ∧
      (addMessage asciiEnv throwingGateway sampleEffects aliceConvId sampleAddBody
        sampleStore).calls = [args] ∧
      asst.role = lit "assistant" ∧ asst.text ≠ [] ∧
      (storedMessage asst).role = lit "assistant" ∧ (storedMessage asst).text ≠ [] ∧
      (throwingGateway args = .threw →
        storedMessage asst = asst ∧
        asst.text = lit
          "Sorry, I'm having trouble reaching the model right now. Please try again later." ∧
        asst.meta = some [("error", MetaVal.js (JsVal.bool true))])) :=
  ⟨gateway_failure_not_propagated.1 asciiEnv throwingGateway sampleEffects sampleCreateBody
      sampleStore (lit " A@X.com ") (lit "Hello there, how are you?") alice rfl (by decide) rfl
      (by decide) (by decide) (Or.inl rfl),
   gateway_failure_not_propagated.2 asciiEnv throwingGateway sampleEffects aliceConvId
      sampleAddBody sampleStore aliceConv._id (lit "a@x.com") (lit "And you?") (lit "user")
      alice aliceConv (by decide) rfl (by decide) rfl (by decide) rfl (by decide) (by decide)
      (by decide) rfl⟩

/-! ## Ownership check -/

theorem notOwner_of_ne (conv : Conversation) (u : User) (h : conv.userId ≠ some u._id) :
    notOwner conv u = true := by
  unfold notOwner
  cases hu : conv.userId with
  | none => rfl
  | some uid =>
    have hne : uid ≠ u._id := fun heq => h (by rw [hu, heq])
    have hhex : uid.hex ≠ u._id.hex := by
      intro hh
      apply hne
      cases uid
      cases hid : u._id
      rw [hid] at hh
      simp only at hh
      rw [hh]
    simp [hhex]

/-- C1 as stated fails for `addMessage`: `bob` (an existing user who does not
own `aliceConv`) posts a body without `text` to that conversation and gets 400,
not 403, because the body is validated before the ownership check. -/
theorem addMessage_non_owner_without_text_is_400 :
    asciiEnv.castObjectId aliceConvId = some aliceConv._id ∧
    findConversationById sampleStore aliceConv._id = some aliceConv ∧
    findUserByEmail sampleStore (asciiEnv.normalizeEmail (lit "b@x.com")) = some bob ∧
    aliceConv.userId ≠ some bob._id ∧
    (addMessage asciiEnv okGateway sampleEffects aliceConvId
      { user_email := .str (lit "b@x.com"), role := .undefined, text := .undefined }
      sampleStore).response = .error 400 (lit "text is required and must be non-empty") := by
  decide

/-- C1 (amended): for a well-formed id of an existing Conversation and a
non-empty `user_email` resolving to a User whose id differs from the
Conversation's `userId`, `getConversation` and `deleteConversation` answer 403,
and so does `addMessage` when its `text` is a string non-empty after trimming
and its role is one of user, assistant, system; in each case the store is
unchanged (no Message created, Conversation untouched) and the gateway is not
called. -/
theorem non_owner_is_forbidden (env : Env) (s : Store) (id : JsString) (oid : ObjectId)
    (e : JsString) (u : User) (conv : Conversation)
    (hid : env.castObjectId id = some oid) (he0 : e ≠ [])
    (hu : findUserByEmail s (trim (env.toLowerCase e)) = some u)
    (hc : findConversationById s oid = some conv)
    (hown : conv.userId ≠ some u._id) :
    ((getConversation env id (.str e) s).response.status = 403 ∧
      (getConversation env id (.str e) s).store = s ∧
      (getConversation env id (.str e) s).calls = []) ∧
    (∀ fx : Effects,
      (deleteConversation env fx id (.str e) s).response.status = 403 ∧
      (deleteConversation env fx id (.str e) s).store = s ∧
      (deleteConversation env fx id (.str e) s).calls = []) ∧
    (∀ (LLM : CallArgs → GatewayOutcome) (fx : Effects) (body : AddBody) (t r : JsString),
      body.user_email = .str e → body.text = .str t → trim t ≠ [] →
      roleOf body = .str r → validRole r = true →
      (addMessage env LLM fx id body s).response.status = 403 ∧
      (addMessage env LLM fx id body s).store = s ∧
      (addMessage env LLM fx id body s).calls = []) := by
  have h1 : isNonEmptyString (.str e) = true := (isNonEmptyString_iff _).2 ⟨e, rfl, he0⟩
  have ho : notOwner conv u = true := notOwner_of_ne conv u hown
  have hu2 : findUserByEmail s (env.normalizeEmail e) = some u := hu
  refine ⟨?_, ?_, ?_⟩
  · simp [getConversation, hid, h1, JsVal.asString, hu2, hc, ho, Response.status]
  · intro fx
    simp [deleteConversation, hid, h1, JsVal.asString, hu2, hc, ho, Response.status]
  · intro LLM fx body t r he ht ht0 hr hr0
    have h2 : isNonBlankString (.str t) = true := (isNonBlankString_iff _).2 ⟨t, rfl, ht0⟩
    have h3 : roleAllowed (.str r) = true := (roleAllowed_iff _).2 ⟨r, rfl, hr0⟩
    simp [addMessage, hid, he, ht, hr, h1, h2, h3, JsVal.asString, hu2, hc, ho,
      Response.status]

/-- Witness for C1 (amended): `bob` against `aliceConv`. -/
theorem non_owner_is_forbidden_witness :
    ((getConversation asciiEnv aliceConvId (.str (lit "b@x.com")) sampleStore).response.status
        = 403 ∧
      (getConversation asciiEnv aliceConvId (.str (lit "b@x.com")) sampleStore).store
        = sampleStore ∧
      (getConversation asciiEnv aliceConvId (.str (lit "b@x.com")) sampleStore).calls = []) ∧
    ((deleteConversation asciiEnv sampleEffects aliceConvId (.str (lit "b@x.com"))
        sampleStore).response.status = 403 ∧
      (deleteConversation asciiEnv sampleEffects aliceConvId (.str (lit "b@x.com"))
        sampleStore).store = sampleStore ∧
      (deleteConversation asciiEnv sampleEffects aliceConvId (.str (lit "b@x.com"))
        sampleStore).calls = []) ∧
    ((addMessage asciiEnv okGateway sampleEffects aliceConvId bobAddBody
        sampleStore).response.status = 403 ∧
      (addMessage asciiEnv okGateway sampleEffects aliceConvId bobAddBody sampleStore).store
        = sampleStore ∧
      (addMessage asciiEnv okGateway sampleEffects aliceConvId bobAddBody sampleStore).calls
        = []) :=
  (fun w => ⟨w.1, w.2.1 sampleEffects,
      w.2.2 okGateway sampleEffects bobAddBody (lit "hi") (lit "user") rfl rfl (by decide) rfl
        (by decide)⟩)
    (non_owner_is_forbidden asciiEnv sampleStore aliceConvId aliceConv._id (lit "b@x.com") bob
      aliceConv (by decide) (by decide) (by decide) (by decide) (by decide))

/-! ## Soft delete -/

theorem findConversationById_id (s : Store) (oid : ObjectId) (conv : Conversation)
    (h : findConversationById s oid = some conv) : conv._id = oid := by
  have := List.find?_some h
  simpa using this

theorem replaceConversation_length (c : Conversation) (l : List Conversation) :
    (replaceConversation c l).length = l.length := by
  induction l with
  | nil => rfl
  | cons d ds ih =>
    unfold replaceConversation
    split <;> simp [ih]

theorem replaceConversation_find (c conv : Conversation) (l : List Conversation)
    (h : l.find? (fun d => decide (d._id = c._id)) = some conv) :
    (replaceConversation c l).find? (fun d => decide (d._id = c._id)) = some c := by
  induction l with
  | nil => simp at h
  | cons d ds ih =>
    unfold replaceConversation
    by_cases hd : d._id = c._id
    · simp [hd]
    · simp only [hd, if_false]
      rw [List.find?_cons_of_neg _ (by simpa using hd)] at h ⊢
      exact ih h

theorem replaceConversation_others (c : Conversation) (l : List Conversation) :
    (replaceConversation c l).filter (fun d => decide (d._id ≠ c._id)) =
      l.filter (fun d => decide (d._id ≠ c._id)) := by
  induction l with
  | nil => rfl
  | cons d ds ih =>
    unfold replaceConversation
    by_cases hd : d._id = c._id
    · simp [hd]
    · simp only [hd, if_false]
      rw [List.filter_cons_of_pos (by simpa using hd),
        List.filter_cons_of_pos (by simpa using hd), ih]

/-- C6: for a well-formed id of an existing Conversation and a `user_email`
resolving to its owner, `deleteConversation` answers 204; afterwards the
Conversation is still stored under the same id, with state `deleted` and its
`userId`, `title`, `mode`, `documentRefs` unchanged; the Messages and the Users
are unchanged; the number of Conversations is unchanged and every Conversation
with another id is unchanged. -/
theorem deleteConversation_soft_deletes (env : Env) (fx : Effects) (s : Store) (id : JsString)
    (oid : ObjectId) (e : JsString) (u : User) (conv : Conversation)
    (hid : env.castObjectId id = some oid) (he0 : e ≠ [])
    (hu : findUserByEmail s (trim (env.toLowerCase e)) = some u)
    (hc : findConversationById s oid = some conv)
    (hown : conv.userId = some u._id) :
    (deleteConversation env fx id (.str e) s).response = .noContent ∧
    (deleteConversation env fx id (.str e) s).response.status = 204 ∧
    (∃ c, findConversationById (deleteConversation env fx id (.str e) s).store oid = some c ∧
      c._id = conv._id ∧ c.state = ConvState.deleted ∧ c.userId = conv.userId ∧
      c.title = conv.title ∧ c.mode = conv.mode ∧ c.documentRefs = conv.documentRefs ∧
      c.createdAt = conv.createdAt) ∧
    (deleteConversation env fx id (.str e) s).store.messages = s.messages ∧
    (deleteConversation env fx id (.str e) s).store.users = s.users ∧
    (deleteConversation env fx id (.str e) s).store.conversations.length =
      s.conversations.length ∧
    (deleteConversation env fx id (.str e) s).store.conversations.filter
        (fun d => decide (d._id ≠ oid)) =
      s.conversations.filter (fun d => decide (d._id ≠ oid)) := by
  have h1 : isNonEmptyString (.str e) = true := (isNonEmptyString_iff _).2 ⟨e, rfl, he0⟩
  have ho : notOwner conv u = false := by simp [notOwner, hown]
  have hu2 : findUserByEmail s (env.normalizeEmail e) = some u := hu
  have hcid : conv._id = oid := findConversationById_id s oid conv hc
  have hout : deleteConversation env fx id (.str e) s =
      ⟨.noContent, saveConversation s conv { conv with state := ConvState.deleted } (fx.now 0),
        []⟩ := by
    simp [deleteConversation, hid, h1, JsVal.asString, hu2, hc, ho]
  rw [hout]
  refine ⟨rfl, rfl, ?_, ?_, ?_, ?_, ?_⟩
  · unfold saveConversation
    split
    · rename_i hsame
      refine ⟨conv, hc, rfl, ?_, rfl, rfl, rfl, rfl, rfl⟩
      rw [← hsame]
    · refine ⟨{ conv with state := ConvState.deleted, updatedAt := fx.now 0 }, ?_, rfl, rfl,
        rfl, rfl, rfl, rfl, rfl⟩
      subst hcid
      exact replaceConversation_find
        { conv with state := ConvState.deleted, updatedAt := fx.now 0 } conv s.conversations hc
  · unfold saveConversation
    split <;> rfl
  · unfold saveConversation
    split <;> rfl
  · unfold saveConversation
    split
    · rfl
    · exact replaceConversation_length _ _
  · unfold saveConversation
    split
    · rfl
    · subst hcid
      exact replaceConversation_others
        { conv with state := ConvState.deleted, updatedAt := fx.now 0 } s.conversations

/-- Witness for C6: `alice` deletes her conversation. -/
theorem deleteConversation_soft_deletes_witness :
    (deleteConversation asciiEnv sampleEffects aliceConvId (.str (lit "a@x.com"))
      sampleStore).response = .noContent ∧
    (deleteConversation asciiEnv sampleEffects aliceConvId (.str (lit "a@x.com"))
      sampleStore).response.status = 204 ∧
    (∃ c, findConversationById (deleteConversation asciiEnv sampleEffects aliceConvId
        (.str (lit "a@x.com")) sampleStore).store aliceConv._id = some c ∧
      c._id = aliceConv._id ∧ c.state = ConvState.deleted ∧ c.userId = aliceConv.userId ∧
      c.title = aliceConv.title ∧ c.mode = aliceConv.mode ∧
      c.documentRefs = aliceConv.documentRefs ∧ c.createdAt = aliceConv.createdAt) ∧
    (deleteConversation asciiEnv sampleEffects aliceConvId (.str (lit "a@x.com"))
      sampleStore).store.messages = sampleStore.messages ∧
    (deleteConversation asciiEnv sampleEffects aliceConvId (.str (lit "a@x.com"))
      sampleStore).store.users = sampleStore.users ∧
    (deleteConversation asciiEnv sampleEffects aliceConvId (.str (lit "a@x.com"))
      sampleStore).store.conversations.length = sampleStore.conversations.length ∧
    (deleteConversation asciiEnv sampleEffects aliceConvId (.str (lit "a@x.com"))
      sampleStore).store.conversations.filter (fun d => decide (d._id ≠ aliceConv._id)) =
      sampleStore.conversations.filter (fun d => decide (d._id ≠ aliceConv._id)) :=
  deleteConversation_soft_deletes asciiEnv sampleEffects sampleStore aliceConvId aliceConv._id
    (lit "a@x.com") alice aliceConv (by decide) (by decide) (by decide) (by decide) rfl

/-- C7 fails on the code: after `alice` has deleted her conversation (204), a
`getConversation` with the same id and email answers 200 with the conversation
(now in state `deleted`) and its messages, not 404: `getConversation` looks the
record up by id without filtering on `state`. -/
theorem getConversation_after_delete_is_200 :
    (deleteConversation asciiEnv sampleEffects aliceConvId (.str (lit "a@x.com"))
      sampleStore).response.status = 204 ∧
    (getConversation asciiEnv aliceConvId (.str (lit "a@x.com"))
      (deleteConversation asciiEnv sampleEffects aliceConvId (.str (lit "a@x.com"))
        sampleStore).store).response =
      .conversation { aliceConv with state := ConvState.deleted, updatedAt := 1000 }
        [aliceMsg, aliceReply] ∧
    (getConversation asciiEnv aliceConvId (.str (lit "a@x.com"))
      (deleteConversation asciiEnv sampleEffects aliceConvId (.str (lit "a@x.com"))
        sampleStore).store).response.status = 200 := by
  decide

/-- C5 fails on the code: a non-numeric `page` or `limit` becomes NaN (not the
default), and `limit` has no lower clamp: `limit=0` stays 0 and `limit=-5`
stays -5; with `limit=0` the store applies no limit at all. -/
theorem listConversations_malformed_params :
    pageOf { page := some (lit "abc"), limit := none } = JsNum.nan ∧
    limitOf { page := none, limit := some (lit "abc") } = JsNum.nan ∧
    limitOf { page := none, limit := some (lit "0") } = JsNum.int 0 ∧
    limitOf { page := none, limit := some (lit "-5") } = JsNum.int (-5) ∧
    (listConversations { page := some (lit "abc"), limit := none } sampleStore).response
      = .unhandled ∧
    (listConversations { page := none, limit := some (lit "0") } sampleStore).response
      = .listed (.int 1) (.int 0) 1 false [aliceConv] := by
  decide

/-! ## Pagination -/

theorem isDigit_bounds (c : Nat) (h : isDigit c = true) : 0x30 ≤ c ∧ c ≤ 0x39 := by
  simpa [isDigit] using h

theorem isWhiteSpace_of_lt (c : Nat) (h : c < 0x3A) (h9 : 0x20 < c) : isWhiteSpace c = false := by
  unfold isWhiteSpace
  simp only [Bool.or_eq_false_iff, beq_eq_false_iff_ne, Bool.and_eq_false_imp,
    decide_eq_true_eq, decide_eq_false_iff_not, ne_eq]
  omega

theorem isDigit_small (n : Nat) (h : n < 10) : isDigit (n + 0x30) = true := by
  simp [isDigit]
  omega

theorem decimalDigits_head (fuel n : Nat) (acc : JsString) (h : n < fuel) :
    ∃ c cs, decimalDigits fuel n acc = c :: cs ∧ isDigit c = true := by
  induction fuel generalizing n acc with
  | zero => omega
  | succ f ih =>
    unfold decimalDigits
    by_cases hn : n < 10
    · simp only [hn, if_true]
      exact ⟨_, _, rfl, isDigit_small n hn⟩
    · simp only [hn, if_false]
      exact ih (n / 10) _ (by omega)

theorem digitsValue_decimalDigits (fuel n : Nat) (acc : JsString) (h : n < fuel) :
    digitsValue 0 (decimalDigits fuel n acc) = digitsValue n acc := by
  induction fuel generalizing n acc with
  | zero => omega
  | succ f ih =>
    unfold decimalDigits
    by_cases hn : n < 10
    · simp only [hn, if_true]
      simp [digitsValue, isDigit_small n hn]
    · simp only [hn, if_false]
      rw [ih (n / 10) _ (by omega)]
      have hd : isDigit (n % 10 + 0x30) = true := isDigit_small _ (Nat.mod_lt _ (by omega))
      simp only [digitsValue, hd, if_true]
      congr 1
      omega

theorem parseDigits_decimalNat (n : Nat) : parseDigits (decimalNat n) = some n := by
  obtain ⟨c, cs, hcs, hc⟩ := decimalDigits_head (n + 1) n [] (by omega)
  have hv := digitsValue_decimalDigits (n + 1) n [] (by omega)
  unfold decimalNat
  rw [hcs] at hv ⊢
  simp only [parseDigits, hc, if_true]
  rw [hv]
  rfl

theorem excessBits_of_lt (fuel n : Nat) (h : n < 2 ^ 53) : excessBits fuel n = 0 := by
  cases fuel with
  | zero => rfl
  | succ f =>
    unfold excessBits
    exact if_pos h

theorem roundNat_of_lt (n : Nat) (h : n < 2 ^ 53) : roundNat n = n := by
  unfold roundNat
  simp only [excessBits_of_lt n n h, pow_zero, Nat.mod_one, Nat.div_one, Nat.mul_one]
  rw [if_neg (by omega)]

theorem excessBits_spec (fuel n : Nat) :
    excessBits fuel n = 0 ∨ 2 ^ 52 ≤ n / 2 ^ excessBits fuel n := by
  induction fuel generalizing n with
  | zero => exact Or.inl rfl
  | succ f ih =>
    unfold excessBits
    by_cases hn : n < 2 ^ 53
    · exact Or.inl (if_pos hn)
    · right
      rw [if_neg hn]
      have hdiv : n / 2 ^ (excessBits f (n / 2) + 1) = n / 2 / 2 ^ excessBits f (n / 2) := by
        rw [Nat.pow_succ, Nat.mul_comm, Nat.div_div_eq_div_mul]
      rw [hdiv]
      rcases ih (n / 2) with h0 | hge
      · rw [h0]
        simp only [pow_zero, Nat.div_one]
        omega
      · exact hge

theorem roundNat_ge (n : Nat) (h : 2 ^ 53 ≤ n) : 2 ^ 52 ≤ roundNat n := by
  have hq : 2 ^ 52 ≤ n / 2 ^ excessBits n n * 2 ^ excessBits n n := by
    rcases excessBits_spec n n with h0 | hge
    · rw [h0]
      simp only [pow_zero, Nat.div_one, Nat.mul_one]
      omega
    · calc 2 ^ 52 ≤ n / 2 ^ excessBits n n := hge
        _ ≤ n / 2 ^ excessBits n n * 2 ^ excessBits n n :=
          Nat.le_mul_of_pos_right _ (Nat.two_pow_pos _)
  unfold roundNat
  simp only
  split
  · calc 2 ^ 52 ≤ n / 2 ^ excessBits n n * 2 ^ excessBits n n := hq
      _ ≤ (n / 2 ^ excessBits n n + 1) * 2 ^ excessBits n n :=
        Nat.mul_le_mul_right _ (Nat.le_succ _)
  · exact hq

theorem toNumber_of_lt (z : Int) (h : z.natAbs < 2 ^ 53) : toNumber z = .int z := by
  unfold toNumber
  rw [roundNat_of_lt _ h]
  have hsmall : ¬ ((2 ^ 256) ^ 4 ≤ z.natAbs) := by
    have : (2 : Nat) ^ 53 ≤ (2 ^ 256) ^ 4 := by norm_num
    omega
  rw [if_neg hsmall]
  by_cases hz : z < 0
  · rw [if_pos hz]
    congr 1
    omega
  · rw [if_neg hz]
    congr 1
    omega

theorem toNumber_neg_cases (z : Int) (hz : z < 0) :
    toNumber z = .inf true ∨ ∃ w : Int, w ≤ 0 ∧ toNumber z = .int w := by
  unfold toNumber
  by_cases hbig : (2 ^ 256) ^ 4 ≤ roundNat z.natAbs
  · left
    rw [if_pos hbig]
    simp [hz]
  · right
    refine ⟨-(roundNat z.natAbs : Int), by omega, ?_⟩
    rw [if_neg hbig, if_pos hz]

theorem toNumber_large_cases (z : Int) (hz : 2 ^ 53 ≤ z) :
    toNumber z = .inf false ∨ ∃ w : Int, 100 ≤ w ∧ toNumber z = .int w := by
  have hnat : 2 ^ 53 ≤ z.natAbs := by omega
  have hge := roundNat_ge z.natAbs hnat
  have hz0 : ¬ z < 0 := by omega
  unfold toNumber
  by_cases hbig : (2 ^ 256) ^ 4 ≤ roundNat z.natAbs
  · left
    rw [if_pos hbig]
    simp [hz0]
  · right
    refine ⟨(roundNat z.natAbs : Int), ?_, ?_⟩
    · have : (100 : Nat) ≤ 2 ^ 52 := by norm_num
      omega
    · rw [if_neg hbig, if_neg hz0]

theorem parseInt_decimalNat (n : Nat) : parseInt (decimalNat n) = toNumber n := by
  obtain ⟨c, cs, hcs, hc⟩ := decimalDigits_head (n + 1) n [] (by omega)
  have hp := parseDigits_decimalNat n
  have hb := isDigit_bounds c hc
  have hw : isWhiteSpace c = false := isWhiteSpace_of_lt c (by omega) (by omega)
  unfold decimalNat at hp ⊢
  rw [hcs] at hp ⊢
  have h1 : (c == 0x2D) = false := by simp; omega
  have h2 : (c == 0x2B) = false := by simp; omega
  simp only [parseInt, List.dropWhile_cons, hw, Bool.false_eq_true, if_false, h1, h2, hp]

theorem parseInt_decimal (z : Int) : parseInt (decimal z) = toNumber z := by
  unfold decimal
  by_cases hz : z < 0
  · simp only [hz, if_true]
    have hw : isWhiteSpace 0x2D = false := by decide
    simp only [parseInt, List.dropWhile_cons, hw, Bool.false_eq_true, if_false, beq_self_eq_true,
      if_true, parseDigits_decimalNat]
    congr 1
    omega
  · simp only [hz, if_false]
    rw [parseInt_decimalNat]
    congr 1
    omega

theorem decimal_ne_nil (z : Int) : decimal z ≠ [] := by
  unfold decimal
  split
  · simp
  · obtain ⟨c, cs, hcs, _⟩ := decimalDigits_head (z.natAbs + 1) z.natAbs [] (by omega)
    unfold decimalNat
    rw [hcs]
    simp

theorem orDefault_decimal (z : Int) (d : JsString) : orDefault (some (decimal z)) d = decimal z := by
  have := decimal_ne_nil z
  cases hz : decimal z with
  | nil => exact absurd hz this
  | cons c cs => simp [orDefault, hz]

theorem parseInt_page_param (pz : Option Int) :
    parseInt (orDefault (pz.map decimal) (lit "1")) = toNumber (pz.getD 1) := by
  cases pz with
  | none => decide
  | some z => simp [orDefault_decimal, parseInt_decimal]

theorem parseInt_limit_param (lz : Option Int) :
    parseInt (orDefault (lz.map decimal) (decimalNat DEFAULT_PAGE_SIZE)) = toNumber (lz.getD 20) := by
  cases lz with
  | none => decide
  | some z => simp [orDefault_decimal, parseInt_decimal]

theorem pageOf_decimal (pz : Option Int) (l : Option JsString) (hp : pz.getD 1 < 2 ^ 53) :
    pageOf { page := pz.map decimal, limit := l } = .int (max 1 (pz.getD 1)) := by
  unfold pageOf
  simp only [parseInt_page_param]
  by_cases hneg : pz.getD 1 < 0
  · have hmax : max 1 (pz.getD 1) = 1 := by omega
    rw [hmax]
    rcases toNumber_neg_cases _ hneg with h | ⟨w, hw, h⟩
    · rw [h]; rfl
    · rw [h]
      simp only [JsNum.max]
      congr 1
      omega
  · rw [toNumber_of_lt _ (by omega)]
    rfl

theorem limitOf_decimal (p : Option JsString) (lz : Option Int) (hl : -(2 ^ 53) < lz.getD 20) :
    limitOf { page := p, limit := lz.map decimal } = .int (min 100 (lz.getD 20)) := by
  unfold limitOf
  simp only [parseInt_limit_param]
  by_cases hbig : 2 ^ 53 ≤ lz.getD 20
  · have hmin : min 100 (lz.getD 20) = 100 := by omega
    rw [hmin]
    rcases toNumber_large_cases _ hbig with h | ⟨w, hw, h⟩
    · rw [h]; rfl
    · rw [h]
      simp only [JsNum.min]
      congr 1
      omega
  · rw [toNumber_of_lt _ (by omega)]
    rfl

theorem cursorWindow_length {α : Type} (sk l : Int) (docs items : List α)
    (h : cursorWindow (.int sk) (.int l) docs = some items) (hl : 0 < l) :
    (items.length : Int) ≤ l := by
  unfold cursorWindow at h
  simp only at h
  split at h
  · simp at h
  · split at h
    · omega
    · simp only [Option.some.injEq] at h
      rw [← h]
      have := List.length_take_le l.natAbs (List.drop sk.toNat docs)
      omega

theorem cursorWindow_span {α : Type} (sk l : Int) (docs items : List α)
    (h : cursorWindow (.int sk) (.int l) docs = some items) :
    0 ≤ sk ∧ (sk + items.length ≤ sk ∨ sk + items.length ≤ docs.length) := by
  unfold cursorWindow at h
  simp only at h
  split at h
  · simp at h
  · rename_i hsk
    refine ⟨by omega, ?_⟩
    split at h
    · simp only [Option.some.injEq] at h
      rw [← h, List.length_drop]
      omega
    · simp only [Option.some.injEq] at h
      rw [← h]
      have h1 : (List.take l.natAbs (List.drop sk.toNat docs)).length
          ≤ (List.drop sk.toNat docs).length := by
        rw [List.length_take]
        exact Nat.min_le_right _ _
      rw [List.length_drop] at h1
      omega

theorem cursorWindow_isSome {α : Type} (sk l : Int) (docs : List α) (h : 0 ≤ sk) :
    ∃ items, cursorWindow (.int sk) (.int l) docs = some items := by
  unfold cursorWindow
  simp only
  rw [if_neg (by omega)]
  split
  · exact ⟨_, rfl⟩
  · exact ⟨_, rfl⟩

theorem matching_length_le (s : Store) :
    (sortUpdatedDesc (s.conversations.filter notDeleted)).length ≤ s.conversations.length := by
  unfold sortUpdatedDesc
  rw [List.length_insertionSort]
  exact List.length_filter_le _ _

set_option maxRecDepth 20000 in
/-- C4 as stated fails beyond the integers a double holds exactly: for
`page=9007199254740993` (2^53 + 1) the handler's page is 9007199254740992, not
max(1, page); for `page=9007199254740991&limit=3` its skip is 27021597764222968, not
(page - 1) * limit = 27021597764222970. -/
theorem listConversations_page_above_two_pow_53 :
    lit "9007199254740993" = decimal 9007199254740993 ∧
    pageOf { page := some (lit "9007199254740993"), limit := none }
      = JsNum.int 9007199254740992 ∧
    JsNum.int 9007199254740992 ≠ JsNum.int (max 1 9007199254740993) ∧
    pageOf { page := some (lit "9007199254740991"), limit := some (lit "3") }
      = JsNum.int 9007199254740991 ∧
    limitOf { page := some (lit "9007199254740991"), limit := some (lit "3") }
      = JsNum.int 3 ∧
    skipOf { page := some (lit "9007199254740991"), limit := some (lit "3") }
      = JsNum.int 27021597764222968 ∧
    JsNum.int 27021597764222968 ≠ JsNum.int ((9007199254740991 - 1) * 3) := by
  decide

/-- C4 (amended): for integer-valued (or absent) `page` and `limit` query
parameters in the range where double arithmetic is exact (page below 2^53,
limit above -2^53, |(max(1, page) - 1) * min(100, limit)| below 2^53, fewer than
2^53 conversations stored), `listConversations` computes page = max(1, page)
with default 1, limit = min(100, limit) with default 20 (so at most 100), and
skip = (page - 1) * limit; every listing it answers carries that page and limit,
`total` = the number of non-deleted conversations, `hasMore` true iff
skip + len(items) < total, and at most `limit` items when limit is positive; it
does answer a listing whenever limit is not negative, and `limit=500` yields at
most 100 items. -/
theorem listConversations_pagination (s : Store) (pz lz : Option Int)
    (hpage : pz.getD 1 < 2 ^ 53) (hlimit : -(2 ^ 53) < lz.getD 20)
    (hskip : ((max 1 (pz.getD 1) - 1) * min 100 (lz.getD 20)).natAbs < 2 ^ 53)
    (hstore : s.conversations.length < 2 ^ 53) :
    pageOf { page := pz.map decimal, limit := lz.map decimal } = .int (max 1 (pz.getD 1)) ∧
    limitOf { page := pz.map decimal, limit := lz.map decimal }
      = .int (min 100 (lz.getD 20)) ∧
    min 100 (lz.getD 20) ≤ 100 ∧
    skipOf { page := pz.map decimal, limit := lz.map decimal }
      = .int ((max 1 (pz.getD 1) - 1) * min 100 (lz.getD 20)) ∧
    (∀ page limit total hasMore items,
      (listConversations { page := pz.map decimal, limit := lz.map decimal } s).response
        = .listed page limit total hasMore items →
      page = .int (max 1 (pz.getD 1)) ∧ limit = .int (min 100 (lz.getD 20)) ∧
      total = (s.conversations.filter (fun c => decide (c.state ≠ ConvState.deleted))).length ∧
      (hasMore = true ↔
        (max 1 (pz.getD 1) - 1) * min 100 (lz.getD 20) + (items.length : Int) < (total : Int)) ∧
      (0 < min 100 (lz.getD 20) → (items.length : Int) ≤ min 100 (lz.getD 20))) ∧
    (0 ≤ lz.getD 20 →
      ∃ total hasMore items,
        (listConversations { page := pz.map decimal, limit := lz.map decimal } s).response
          = .listed (.int (max 1 (pz.getD 1))) (.int (min 100 (lz.getD 20))) total hasMore
              items) ∧
    (lz = some 500 →
      ∃ total hasMore items,
        (listConversations { page := pz.map decimal, limit := lz.map decimal } s).response
          = .listed (.int (max 1 (pz.getD 1))) (.int 100) total hasMore items ∧
        items.length ≤ 100) := by
  have hp := pageOf_decimal pz (lz.map decimal) hpage
  have hl := limitOf_decimal (pz.map decimal) lz hlimit
  have hs : skipOf { page := pz.map decimal, limit := lz.map decimal }
      = .int ((max 1 (pz.getD 1) - 1) * min 100 (lz.getD 20)) := by
    simp only [skipOf, hp, hl, JsNum.sub, JsNum.neg, JsNum.add]
    have h1 : max 1 (pz.getD 1) + -1 = max 1 (pz.getD 1) - 1 := by omega
    rw [h1, toNumber_of_lt (max 1 (pz.getD 1) - 1) (by omega)]
    simp only [JsNum.mul]
    exact toNumber_of_lt _ hskip
  have hlisted : ∀ page limit total hasMore items,
      (listConversations { page := pz.map decimal, limit := lz.map decimal } s).response
        = .listed page limit total hasMore items →
      page = .int (max 1 (pz.getD 1)) ∧ limit = .int (min 100 (lz.getD 20)) ∧
      total = (s.conversations.filter (fun c => decide (c.state ≠ ConvState.deleted))).length ∧
      (hasMore = true ↔
        (max 1 (pz.getD 1) - 1) * min 100 (lz.getD 20) + (items.length : Int) < (total : Int)) ∧
      (0 < min 100 (lz.getD 20) → (items.length : Int) ≤ min 100 (lz.getD 20)) := by
    intro page limit total hasMore items h
    unfold listConversations at h
    simp only [hp, hl, hs] at h
    cases hw : cursorWindow (.int ((max 1 (pz.getD 1) - 1) * min 100 (lz.getD 20)))
        (.int (min 100 (lz.getD 20))) (sortUpdatedDesc (s.conversations.filter notDeleted)) with
    | none => simp [hw] at h
    | some its =>
      simp only [hw, Response.listed.injEq] at h
      obtain ⟨h1, h2, h3, h4, h5⟩ := h
      subst h5
      obtain ⟨hsk0, hspan⟩ := cursorWindow_span _ _ _ _ hw
      have hdocs := matching_length_le s
      have hexact : toNumber ((max 1 (pz.getD 1) - 1) * min 100 (lz.getD 20) + (its.length : Int))
          = .int ((max 1 (pz.getD 1) - 1) * min 100 (lz.getD 20) + (its.length : Int)) := by
        apply toNumber_of_lt
        omega
      refine ⟨h1.symm, h2.symm, ?_, ?_, ?_⟩
      · rw [← h3]
        rfl
      · rw [← h4, ← h3]
        simp only [JsNum.add, hexact, JsNum.lt, decide_eq_true_eq]
      · intro hpos
        exact cursorWindow_length _ _ _ _ hw hpos
  have hanswers : ∀ (hnn : 0 ≤ (max 1 (pz.getD 1) - 1) * min 100 (lz.getD 20)),
      ∃ total hasMore items,
        (listConversations { page := pz.map decimal, limit := lz.map decimal } s).response
          = .listed (.int (max 1 (pz.getD 1))) (.int (min 100 (lz.getD 20))) total hasMore
              items := by
    intro hnn
    obtain ⟨its, hw⟩ := cursorWindow_isSome ((max 1 (pz.getD 1) - 1) * min 100 (lz.getD 20))
      (min 100 (lz.getD 20)) (sortUpdatedDesc (s.conversations.filter notDeleted)) hnn
    unfold listConversations
    simp only [hp, hl, hs, hw]
    exact ⟨_, _, _, rfl⟩
  refine ⟨hp, hl, min_le_left _ _, hs, hlisted, ?_, ?_⟩
  · intro h0
    apply hanswers
    apply mul_nonneg
    · have := le_max_left (1 : Int) (pz.getD 1)
      omega
    · exact le_min (by omega) h0
  · intro h500
    subst h500
    have hmin : min (100 : Int) ((some (500 : Int)).getD 20) = 100 := by decide
    obtain ⟨total, hasMore, items, hresp⟩ := hanswers (by
      apply mul_nonneg
      · have := le_max_left (1 : Int) (pz.getD 1)
        omega
      · rw [hmin]; omega)
    have hlen := (hlisted _ _ total hasMore items hresp).2.2.2.2 (by rw [hmin]; omega)
    rw [hmin] at hresp hlen
    exact ⟨total, hasMore, items, hresp, by omega⟩

/-- Witness for C4 (amended): `?page=0&limit=500` on the example store. -/
theorem listConversations_pagination_witness :
    pageOf { page := (some (0 : Int)).map decimal, limit := (some (500 : Int)).map decimal }
      = .int (max 1 ((some (0 : Int)).getD 1)) ∧
    ∃ total hasMore items,
      (listConversations
          { page := (some (0 : Int)).map decimal, limit := (some (500 : Int)).map decimal }
          sampleStore).response
        = .listed (.int (max 1 ((some (0 : Int)).getD 1))) (.int 100) total hasMore items ∧
      items.length ≤ 100 :=
  ⟨(listConversations_pagination sampleStore (some 0) (some 500) (by decide) (by decide)
      (by decide) (by decide)).1,
   (listConversations_pagination sampleStore (some 0) (some 500) (by decide) (by decide)
      (by decide) (by decide)).2.2.2.2.2.2 rfl⟩

end BotGpt
